import Mathlib

/-!
# fabric8-auth: the authorize callback controller and the token resource design

A shallow embedding of

* `controller/authorizecallback.go`: the handler `Authorizecallback`, with its
  collaborators (the `errors` and `jsonapi` packages, the OAuth service) taken as
  parameters and every call it makes recorded in a call log;
* `design/token.go`: the goa design of the `token` resource, written as the tree of
  DSL calls found in the source and evaluated by an interpreter of the DSL;
* `controller/users_blackbox_test.go`: the scenarios of the tests of the users
  controller, run against a model of the handlers they exercise.
-/

namespace Controller

/-- The request context `app.AuthorizecallbackAuthorizecallbackContext`. The handler reads
the two optional query parameters `State` and `Code` (a nil pointer is `none`); everything
else the context carries is kept in `RequestData`. -/
structure AuthorizecallbackAuthorizecallbackContext (δ : Type) where
  Code : Option String
  State : Option String
  RequestData : δ

/-- The packages `errors` and `jsonapi`, whose sources are not part of the development:
their functions are parameters. `β` is the type of bad-parameter errors, `ε` the type of
non-nil Go errors, `σ` the state of the outside world (response writer, network, store). -/
structure Packages (δ β ε σ : Type) where
  NewBadParameterError : String → String → β
  Expected : β → String → β
  JSONErrorResponse : AuthorizecallbackAuthorizecallbackContext δ → β → σ → Option ε × σ

/-- The interface `login.KeycloakOAuthService`, restricted to the method the handler uses. -/
structure KeycloakOAuthService (δ ε σ : Type) where
  PerformAuthorizeCallback : AuthorizecallbackAuthorizecallbackContext δ → σ → Option ε × σ

/-- The controller `AuthorizecallbackController`; `TokenManager` and `Configuration` are not
read by the handler. -/
structure AuthorizecallbackController (δ ε σ : Type) where
  Auth : KeycloakOAuthService δ ε σ

/-- One call made by the handler, with its arguments. -/
inductive Call (δ β : Type) where
  | JSONErrorResponse (ctx : AuthorizecallbackAuthorizecallbackContext δ) (err : β)
  | PerformAuthorizeCallback (ctx : AuthorizecallbackAuthorizecallbackContext δ)

/-- What a run of the handler leaves behind: the returned Go error (`none` is nil), the
state of the world, and the calls made, oldest first. -/
structure Outcome (δ β ε σ : Type) where
  result : Option ε
  world : σ
  calls : List (Call δ β)

/-- Is this call a call of `Auth.PerformAuthorizeCallback`? -/
def Call.isPerformAuthorizeCallback {δ β : Type} : Call δ β → Bool
  | .PerformAuthorizeCallback _ => true
  | .JSONErrorResponse _ _ => false

/-- The handler `AuthorizecallbackController.Authorizecallback`. -/
def Authorizecallback {δ β ε σ : Type} (pkg : Packages δ β ε σ)
    (c : AuthorizecallbackController δ ε σ)
    (ctx : AuthorizecallbackAuthorizecallbackContext δ) (w : σ) : Outcome δ β ε σ :=
  match ctx.State with
  | none =>
    let err := pkg.Expected (pkg.NewBadParameterError "state" "nil") "State"
    let r := pkg.JSONErrorResponse ctx err w
    { result := r.1, world := r.2, calls := [Call.JSONErrorResponse ctx err] }
  | some _ =>
    match ctx.Code with
    | none =>
      let err := pkg.Expected (pkg.NewBadParameterError "code" "nil") "Code"
      let r := pkg.JSONErrorResponse ctx err w
      { result := r.1, world := r.2, calls := [Call.JSONErrorResponse ctx err] }
    | some _ =>
      let r := c.Auth.PerformAuthorizeCallback ctx w
      { result := r.1, world := r.2, calls := [Call.PerformAuthorizeCallback ctx] }

/-- The bad-parameter errors the handler can build: `NewBadParameterError(p, "nil")` with
an expected value attached. -/
def IsBadParameterError {δ β ε σ : Type} (pkg : Packages δ β ε σ) (err : β) : Prop :=
  ∃ param expected : String, err = pkg.Expected (pkg.NewBadParameterError param "nil") expected

end Controller

namespace Design

/-! ## The goa design DSL

`design/token.go` is a tree of calls of goa's design DSL (packages `design`, imported as
`d`, and `apidsl`, imported as `a`). The DSL is data here: each call is a constructor, in
the order of the source, and the functions below run the calls the way goa does, building
the definitions that goa keeps (attributes in a map keyed by name, `Required` names
accumulated without duplicates, responses in a map keyed by response name). -/

/-- The data types of goa that the design uses. A user type is referred to by its type
name. -/
inductive DataType where
  | String
  | Boolean
  | Any
  | ArrayOf (elem : DataType)
  | UserType (typeName : String)
deriving DecidableEq, Repr

/-- Calls allowed in the anonymous function of an attribute or parameter. -/
inductive AttributeDSL where
  | Enum (values : List String)
  | Default (value : String)
  | Description (text : String)
  | Example (text : String)
deriving DecidableEq, Repr

/-- Calls allowed in the body of `a.Attributes`, `a.Params`, `a.Type` and `a.View`:
`a.Attribute(name, [type], [description], [dsl])` (`a.Param` is the same call) and
`a.Required(names...)`. -/
inductive ObjectDSL where
  | Attribute (name : String) (type : Option DataType) (description : Option String)
      (dsl : List AttributeDSL)
  | Required (names : List String)
deriving DecidableEq, Repr

/-- The call `a.Param`, which goa defines as `a.Attribute`. -/
@[reducible] def ObjectDSL.Param (name : String) (type : Option DataType)
    (description : Option String) (dsl : List AttributeDSL) : ObjectDSL :=
  ObjectDSL.Attribute name type description dsl

/-- An attribute that is not an object: its type, description, the allowed values of its
`Enum` validation (`Validation.Values`), its default value (set by `a.Default`) and its
example. -/
structure AttributeDefinition where
  DType : DataType
  Description : String
  Values : Option (List String)
  DefaultValue : Option String
  Example : Option String
deriving DecidableEq, Repr

/-- An attribute of object type: the attributes (goa keeps a map keyed by name; here an
association list in order of first declaration) and the required names
(`Validation.Required`). -/
structure ObjectDefinition where
  Attributes : List (String × AttributeDefinition)
  Required : List String
deriving DecidableEq, Repr

/-- Runs one call of an attribute's anonymous function. -/
def AttributeDSL.apply (att : AttributeDefinition) : AttributeDSL → AttributeDefinition
  | .Enum values => { att with Values := some values }
  | .Default value => { att with DefaultValue := some value }
  | .Description text => { att with Description := text }
  | .Example text => { att with Example := some text }

/-- goa's `ValidationDefinition.AddRequired`: appends each name that is not there yet. -/
def AddRequired (required : List String) (names : List String) : List String :=
  names.foldl (fun acc r => if r ∈ acc then acc else acc ++ [r]) required

/-- The map assignment `object[name] = att`. -/
def setAttribute (name : String) (att : AttributeDefinition) :
    List (String × AttributeDefinition) → List (String × AttributeDefinition)
  | [] => [(name, att)]
  | (n, old) :: rest =>
    if n = name then (name, att) :: rest else (n, old) :: setAttribute name att rest

/-- The map lookup `object[name]`. -/
def getAttribute (name : String) :
    List (String × AttributeDefinition) → Option AttributeDefinition
  | [] => none
  | (n, att) :: rest => if n = name then some att else getAttribute name rest

/-- Runs one call of an object body. An attribute without a type is a `String`. -/
def ObjectDSL.apply (o : ObjectDefinition) : ObjectDSL → ObjectDefinition
  | .Attribute name type description dsl =>
    let base : AttributeDefinition :=
      { DType := type.getD DataType.String, Description := description.getD "",
        Values := none, DefaultValue := none, Example := none }
    { o with Attributes := setAttribute name (dsl.foldl AttributeDSL.apply base) o.Attributes }
  | .Required names => { o with Required := AddRequired o.Required names }

/-- Runs an object body from the empty object. -/
def evalObject (dsl : List ObjectDSL) : ObjectDefinition :=
  dsl.foldl ObjectDSL.apply { Attributes := [], Required := [] }

/-- A user type, `a.Type(name, dsl)`. -/
structure UserTypeDefinition where
  TypeName : String
  Object : ObjectDefinition
deriving DecidableEq, Repr

/-- The call `a.Type(name, dsl)`. -/
def TypeDef (name : String) (dsl : List ObjectDSL) : UserTypeDefinition :=
  { TypeName := name, Object := evalObject dsl }

/-- Calls allowed in the body of `a.MediaType`. -/
inductive MediaTypeDSL where
  | TypeName (name : String)
  | Description (text : String)
  | Attributes (dsl : List ObjectDSL)
  | View (name : String) (dsl : List ObjectDSL)
deriving DecidableEq, Repr

/-- A view of a media type: the attributes it renders and its own required names. -/
structure ViewDefinition where
  Name : String
  Object : ObjectDefinition
deriving DecidableEq, Repr

/-- A media type: identifier (kept as written), type name, description, attributes and
views. -/
structure MediaTypeDefinition where
  Identifier : String
  TypeName : String
  Description : String
  Object : ObjectDefinition
  Views : List ViewDefinition
deriving DecidableEq, Repr

/-- The attributes of a view, resolved against the media type: each attribute named in
the view is replaced by a copy of the media type's attribute of that name; a name the
media type does not have (other than `links`) is an error. -/
def resolveViewAttributes (mt : List (String × AttributeDefinition)) :
    List (String × AttributeDefinition) → Option (List (String × AttributeDefinition))
  | [] => some []
  | (n, cat) :: rest =>
    match resolveViewAttributes mt rest with
    | none => none
    | some rest' =>
      match getAttribute n mt with
      | some existing => some ((n, existing) :: rest')
      | none => if n = "links" then some ((n, cat) :: rest') else none

/-- goa's `buildView`. -/
def buildView (name : String) (mt : ObjectDefinition) (va : ObjectDefinition) :
    Option ViewDefinition :=
  (resolveViewAttributes mt.Attributes va.Attributes).map
    (fun attrs => { Name := name, Object := { va with Attributes := attrs } })

/-- Runs one call of a media type body. A view whose name is already taken, or that does
not build, is not registered. -/
def MediaTypeDSL.apply (mt : MediaTypeDefinition) : MediaTypeDSL → MediaTypeDefinition
  | .TypeName name => { mt with TypeName := name }
  | .Description text => { mt with Description := text }
  | .Attributes dsl => { mt with Object := dsl.foldl ObjectDSL.apply mt.Object }
  | .View name dsl =>
    if mt.Views.any (fun v => v.Name = name) then mt
    else
      match buildView name mt.Object (evalObject dsl) with
      | some v => { mt with Views := mt.Views ++ [v] }
      | none => mt

/-- The call `a.MediaType(identifier, dsl)`. -/
def MediaType (identifier : String) (dsl : List MediaTypeDSL) : MediaTypeDefinition :=
  dsl.foldl MediaTypeDSL.apply
    { Identifier := identifier, TypeName := "", Description := "",
      Object := { Attributes := [], Required := [] }, Views := [] }

end Design

namespace Design

/-! ## Actions, responses and routes -/

/-- The response templates of goa that the design names (`d.OK`, `d.BadRequest`, ...). -/
inductive ResponseName where
  | OK
  | TemporaryRedirect
  | BadRequest
  | Unauthorized
  | InternalServerError
deriving DecidableEq, Repr

/-- The HTTP status of a response template. -/
def ResponseName.Status : ResponseName → Nat
  | .OK => 200
  | .TemporaryRedirect => 307
  | .BadRequest => 400
  | .Unauthorized => 401
  | .InternalServerError => 500

/-- The body of a response: a media type, or the collection `a.CollectionOf` of one. -/
inductive MediaRef where
  | Of (mt : MediaTypeDefinition)
  | CollectionOf (mt : MediaTypeDefinition)
deriving DecidableEq, Repr

/-- The identifier of the body of a response; the collection of a media type has the
identifier of the media type with the parameter `type=collection`. -/
def MediaRef.Identifier : MediaRef → String
  | .Of mt => mt.Identifier
  | .CollectionOf mt => mt.Identifier ++ "; type=collection"

/-- Calls allowed in the anonymous function of `a.Response`. -/
inductive ResponseDSL where
  | Media (m : MediaRef)
deriving DecidableEq, Repr

/-- A response of an action: the media type definition it was given, if any (`Media`),
and the identifier of the media type of its body (`MediaType`, empty when it has none). -/
structure ResponseDefinition where
  Name : ResponseName
  Status : Nat
  Media : Option MediaRef
  MediaType : String
deriving DecidableEq, Repr

/-- A route of an action: HTTP verb and path as written. -/
structure RouteDefinition where
  Verb : String
  Path : String
deriving DecidableEq, Repr

/-- The call `a.GET(path)`. -/
def GET (path : String) : RouteDefinition := { Verb := "GET", Path := path }

/-- The call `a.POST(path)`. -/
def POST (path : String) : RouteDefinition := { Verb := "POST", Path := path }

/-- The call `a.DELETE(path)`. -/
def DELETE (path : String) : RouteDefinition := { Verb := "DELETE", Path := path }

/-- Calls allowed in the body of `a.Action`. `a.Response(name, [media type], [dsl])`. -/
inductive ActionDSL where
  | Security (scheme : String)
  | Routing (routes : List RouteDefinition)
  | Params (dsl : List ObjectDSL)
  | Payload (type : UserTypeDefinition)
  | Description (text : String)
  | Response (name : ResponseName) (media : Option MediaTypeDefinition)
      (dsl : List ResponseDSL)
deriving DecidableEq, Repr

/-- An action of a resource. `Params` and `Payload` are `none` (nil) until declared. -/
structure ActionDefinition where
  Name : String
  Security : Option String
  Routes : List RouteDefinition
  Params : Option ObjectDefinition
  Payload : Option UserTypeDefinition
  Description : String
  Responses : List ResponseDefinition
deriving DecidableEq, Repr

/-- Runs one call of a response's anonymous function. -/
def ResponseDSL.apply (resp : ResponseDefinition) : ResponseDSL → ResponseDefinition
  | .Media m => { resp with Media := some m, MediaType := m.Identifier }

/-- The map assignment `Responses[resp.Name] = resp`. -/
def setResponse (resp : ResponseDefinition) : List ResponseDefinition → List ResponseDefinition
  | [] => [resp]
  | old :: rest =>
    if old.Name = resp.Name then resp :: rest else old :: setResponse resp rest

/-- goa's rule for a response of an action: a response of status 200 that has no media
type takes the default media type of the resource. -/
def defaultResponseMedia (defaultMedia : String) (resp : ResponseDefinition) :
    ResponseDefinition :=
  if resp.Status = 200 ∧ resp.MediaType = "" then { resp with MediaType := defaultMedia }
  else resp

/-- Runs one call of an action body; `defaultMedia` is the default media type of the
resource the action belongs to. -/
def ActionDSL.apply (defaultMedia : String) (act : ActionDefinition) :
    ActionDSL → ActionDefinition
  | .Security scheme => { act with Security := some scheme }
  | .Routing routes => { act with Routes := act.Routes ++ routes }
  | .Params dsl =>
    { act with
      Params := some (dsl.foldl ObjectDSL.apply
        (act.Params.getD { Attributes := [], Required := [] })) }
  | .Payload type => { act with Payload := some type }
  | .Description text => { act with Description := text }
  | .Response name media dsl =>
    let base : ResponseDefinition :=
      { Name := name, Status := name.Status, Media := media.map MediaRef.Of,
        MediaType := media.elim "" (fun mt => mt.Identifier) }
    { act with
      Responses :=
        setResponse (defaultResponseMedia defaultMedia (dsl.foldl ResponseDSL.apply base))
          act.Responses }

/-- Calls allowed in the body of `a.Resource`. -/
inductive ResourceDSL where
  | BasePath (path : String)
  | DefaultMedia (identifier : String)
  | Action (name : String) (dsl : List ActionDSL)
deriving DecidableEq, Repr

/-- A resource: its base path, the identifier of its default media type and its actions
(a map keyed by action name; here in order of first declaration). -/
structure ResourceDefinition where
  Name : String
  BasePath : String
  MediaType : String
  Actions : List ActionDefinition
deriving DecidableEq, Repr

/-- The call `a.Action(name, dsl)`: runs the body on the action of that name, which is
created when the resource does not have it yet. -/
def runAction (defaultMedia : String) (name : String) (dsl : List ActionDSL) :
    List ActionDefinition → List ActionDefinition
  | [] =>
    [dsl.foldl (ActionDSL.apply defaultMedia)
      { Name := name, Security := none, Routes := [], Params := none, Payload := none,
        Description := "", Responses := [] }]
  | act :: rest =>
    if act.Name = name then dsl.foldl (ActionDSL.apply defaultMedia) act :: rest
    else act :: runAction defaultMedia name dsl rest

/-- Runs one call of a resource body. -/
def ResourceDSL.apply (res : ResourceDefinition) : ResourceDSL → ResourceDefinition
  | .BasePath path => { res with BasePath := path }
  | .DefaultMedia identifier => { res with MediaType := identifier }
  | .Action name dsl =>
    { res with Actions := runAction res.MediaType name dsl res.Actions }

/-- The call `a.Resource(name, dsl)`. A new resource has the default media type
`text/plain`. -/
def Resource (name : String) (dsl : List ResourceDSL) : ResourceDefinition :=
  dsl.foldl ResourceDSL.apply
    { Name := name, BasePath := "", MediaType := "text/plain", Actions := [] }

/-- The action of a resource with the given name. -/
def ResourceDefinition.action? (res : ResourceDefinition) (name : String) :
    Option ActionDefinition :=
  res.Actions.find? (fun act => act.Name = name)

end Design

namespace Design

/-! ## `design/token.go` -/

/-- The media type `externalToken`: a token object. -/
def externalToken : MediaTypeDefinition :=
  MediaType "application/vnd.externalToken+json" [
    .TypeName "ExternalToken",
    .Description "Tokens from external providers such as GitHub or OpenShift",
    .Attributes [
      .Attribute "access_token" (some DataType.String) (some "The token associated with the identity for the specific external provider") [],
      .Attribute "scope" (some DataType.String) (some "The scope associated with the token") [],
      .Attribute "token_type" (some DataType.String) (some "The type of the toke, example : bearer") [],
      .Attribute "username" (some DataType.String) (some "The username of the identity loaded from the specific external provider. Optional attribute.") [],
      .Required ["access_token", "scope", "token_type"]
    ],
    .View "default" [
      .Attribute "access_token" none none [],
      .Attribute "scope" none none [],
      .Attribute "token_type" none none [],
      .Attribute "username" none none [],
      .Required ["access_token", "scope", "token_type"]
    ]
  ]

/-- The media type `PublicKeys`: a public keys payload. -/
def PublicKeys : MediaTypeDefinition :=
  MediaType "application/vnd.publickeys+json" [
    .TypeName "PublicKeys",
    .Description "Public Keys",
    .Attributes [
      .Attribute "keys" (some (DataType.ArrayOf DataType.Any)) none [],
      .Required ["keys"]
    ],
    .View "default" [
      .Attribute "keys" none none []
    ]
  ]

/-- The user type `refreshToken`. -/
def refreshToken : UserTypeDefinition :=
  TypeDef "RefreshToken" [
    .Attribute "refresh_token" (some DataType.String) (some "Refresh token") []
  ]

/-- The user type `tokenExchange`. -/
def tokenExchange : UserTypeDefinition :=
  TypeDef "TokenExchange" [
    .Attribute "grant_type" (some DataType.String) none [
      .Enum ["client_credentials", "authorization_code"],
      .Description "Grant type. If set to \"client_credentials\" then this token exchange request is for a Protection API Token (PAT). PAT can be used to authenticate the corresponding Service Account. If the Grant Type is \"authorization_code\" we can use a authorization_code to get access_token"
    ],
    .Attribute "client_id" (some DataType.String) (some "Service Account ID. Used to obtain a PAT for this service account.") [],
    .Attribute "client_secret" (some DataType.String) (some "Service Account secret. Used to obtain a PAT for this service account.") [],
    .Attribute "redirect_uri" (some DataType.String) (some "Must be identical to the redirect URI provided while getting the authorization_code") [],
    .Attribute "code" (some DataType.String) (some "this is the authorization_code you received from /api/authorize endpoint") [],
    .Required ["grant_type", "client_id"]
  ]

/-- The user type `tokenData`. -/
def tokenData : UserTypeDefinition :=
  TypeDef "TokenData" [
    .Attribute "access_token" (some DataType.String) (some "Access token") [],
    .Attribute "expires_in" (some DataType.Any) (some "Access token expires in seconds") [],
    .Attribute "refresh_expires_in" (some DataType.Any) (some "Refresh token expires in seconds") [],
    .Attribute "refresh_token" (some DataType.String) (some "Refresh token") [],
    .Attribute "token_type" (some DataType.String) (some "Token type") [],
    .Attribute "not-before-policy" (some DataType.Any) (some "Token is not valid if issued before this date") [],
    .Required ["expires_in"],
    .Required ["refresh_expires_in"],
    .Required ["not-before-policy"]
  ]

/-- The media type `AuthToken`: an authentication JWT token. -/
def AuthToken : MediaTypeDefinition :=
  MediaType "application/vnd.authtoken+json" [
    .TypeName "AuthToken",
    .Description "JWT Token",
    .Attributes [
      .Attribute "token" (some (DataType.UserType tokenData.TypeName)) none [],
      .Required ["token"]
    ],
    .View "default" [
      .Attribute "token" none none []
    ]
  ]

/-- The media type `OauthToken`: an Oauth 2.0 token payload. -/
def OauthToken : MediaTypeDefinition :=
  MediaType "application/vnd.oauthtoken+json" [
    .TypeName "OauthToken",
    .Description "Oauth 2.0 token payload",
    .Attributes [
      .Attribute "access_token" (some DataType.String) (some "Access token") [],
      .Attribute "expiry" (some DataType.String) (some "Expiry") [],
      .Attribute "refresh_token" (some DataType.String) (some "RefreshToken") [],
      .Attribute "token_type" (some DataType.String) (some "Token type") []
    ],
    .View "default" [
      .Attribute "access_token" none none [],
      .Attribute "expiry" none none [],
      .Attribute "refresh_token" none none [],
      .Attribute "token_type" none none []
    ]
  ]

/-- The media type `redirectLocation`: a redirect location. -/
def redirectLocation : MediaTypeDefinition :=
  MediaType "application/vnd.redirectlocation+json" [
    .TypeName "RedirectLocation",
    .Description "Redirect Location",
    .Attributes [
      .Attribute "redirect_location" (some DataType.String) (some "The location which should be used to redirect browser") [],
      .Required ["redirect_location"]
    ],
    .View "default" [
      .Attribute "redirect_location" none none [],
      .Required ["redirect_location"]
    ]
  ]

end Design

namespace Design

/-- The resource `token` (`var _ = a.Resource("token", ...)`). The media type
`JSONAPIErrors` is declared in another file of the design and is a parameter. -/
def token (JSONAPIErrors : MediaTypeDefinition) : ResourceDefinition :=
  Resource "token" [
    .BasePath "/token",
    .Action "Retrieve" [
      .Security "jwt",
      .Routing [GET ""],
      .Params [
        .Param "for" (some DataType.String) (some "The resource for which the external token is being fetched, example https://github.com/fabric8-services/fabric8-auth or https://api.starter-us-east-2.openshift.com") [],
        .Param "force_pull" (some DataType.Boolean) (some "Pull the user's details for the specific connected account, example, the user's updated github username would be fetched from github. If this is not set or false, then the user profile will be pulled only if the stored user's details did not have the username") [],
        .Required ["for"]
      ],
      .Description "Get the external token for resources belonging to external providers like Github and OpenShift",
      .Response .OK (some externalToken) [],
      .Response .BadRequest (some JSONAPIErrors) [],
      .Response .InternalServerError (some JSONAPIErrors) [],
      .Response .Unauthorized (some JSONAPIErrors) []
    ],
    .Action "Delete" [
      .Security "jwt",
      .Routing [DELETE ""],
      .Params [
        .Param "for" (some DataType.String) (some "The resource for which the external token is being deleted, example https://github.com/fabric8-services/fabric8-auth or https://api.starter-us-east-2.openshift.com") [],
        .Required ["for"]
      ],
      .Description "Delete the external token for resources belonging to external providers like Github and OpenShift",
      .Response .OK none [],
      .Response .BadRequest (some JSONAPIErrors) [],
      .Response .InternalServerError (some JSONAPIErrors) [],
      .Response .Unauthorized (some JSONAPIErrors) []
    ],
    .Action "Exchange" [
      .Routing [POST ""],
      .Payload tokenExchange,
      .Description "Obtain a security token",
      .Response .OK none [.Media (.Of OauthToken)],
      .Response .Unauthorized (some JSONAPIErrors) [],
      .Response .BadRequest (some JSONAPIErrors) [],
      .Response .InternalServerError (some JSONAPIErrors) []
    ],
    .Action "keys" [
      .Routing [GET "keys"],
      .Params [
        .Param "format" (some DataType.String) none [
          .Enum ["pem", "jwk"],
          .Description "Key format. If set to \"jwk\" (used by default) then JSON Web Key format will be used. If \"pem\" then a PEM-like format (PEM without header and footer) will be used."
        ]
      ],
      .Description "Returns public keys which should be used to verify tokens",
      .Response .OK none [.Media (.Of PublicKeys)]
    ],
    .Action "generate" [
      .Routing [GET "generate"],
      .Description "Generate a set of Tokens for different Auth levels. NOT FOR PRODUCTION. Only available if server is running in dev mode",
      .Response .OK none [.Media (.CollectionOf AuthToken)],
      .Response .Unauthorized (some JSONAPIErrors) [],
      .Response .InternalServerError (some JSONAPIErrors) []
    ],
    .Action "refresh" [
      .Routing [POST "refresh"],
      .Payload refreshToken,
      .Description "Refresh access token",
      .Response .OK none [.Media (.Of AuthToken)],
      .Response .Unauthorized (some JSONAPIErrors) [],
      .Response .BadRequest (some JSONAPIErrors) [],
      .Response .InternalServerError (some JSONAPIErrors) []
    ],
    .Action "link" [
      .Security "jwt",
      .Routing [GET "link"],
      .Params [
        .Param "for" (some DataType.String) (some "Resource we need to link accounts for. Multiple resources should be separated by comma.") [
          .Example "https://github.com,https://api.starter-us-east-2.openshift.com"
        ],
        .Param "redirect" (some DataType.String) (some "URL to be redirected to after successful account linking. If not set then will redirect to the referrer instead.") [],
        .Required ["for"]
      ],
      .Description "Get a redirect location which should be used to initiate account linking between the user account and an external resource provider such as GitHub",
      .Response .OK none [.Media (.Of redirectLocation)],
      .Response .Unauthorized (some JSONAPIErrors) [],
      .Response .BadRequest (some JSONAPIErrors) [],
      .Response .InternalServerError (some JSONAPIErrors) []
    ],
    .Action "callback" [
      .Routing [GET "/link/callback"],
      .Params [
        .Param "code" (some DataType.String) (some "Code provided by an external oauth2 resource provider") [],
        .Param "state" (some DataType.String) (some "State generated by the link request") [],
        .Required ["code", "state"]
      ],
      .Description "Callback from an external oauth2 resource provider such as GitHub as part of user's account linking",
      .Response .TemporaryRedirect none [],
      .Response .BadRequest (some JSONAPIErrors) [],
      .Response .InternalServerError (some JSONAPIErrors) []
    ]
  ]

end Design

namespace Design

/-! ## Reading the definitions -/

/-- The attributes of an object, each with its type and whether it is required. -/
def ObjectDefinition.summary (o : ObjectDefinition) : List (String × DataType × Bool) :=
  o.Attributes.map (fun p => (p.1, p.2.DType, decide (p.1 ∈ o.Required)))

/-- The allowed values of an attribute of an object (`none`: no `Enum`, or no such
attribute). -/
def ObjectDefinition.enumOf (o : ObjectDefinition) (name : String) : Option (List String) :=
  (getAttribute name o.Attributes).bind (fun att => att.Values)

/-- The parameters of an action, each with its type and whether it is required. -/
def ActionDefinition.params (act : ActionDefinition) : List (String × DataType × Bool) :=
  match act.Params with
  | none => []
  | some o => o.summary

/-- The allowed values of a parameter of an action. -/
def ActionDefinition.paramEnum (act : ActionDefinition) (name : String) :
    Option (List String) :=
  act.Params.bind (fun o => o.enumOf name)

/-- The responses of an action: HTTP status and body media type, in declaration order. -/
def ActionDefinition.responses (act : ActionDefinition) : List (Nat × Option MediaRef) :=
  act.Responses.map (fun r => (r.Status, r.Media))

/-- The default value of a parameter of an action (`none`: no `a.Default`, or no such
parameter). -/
def ActionDefinition.paramDefault (act : ActionDefinition) (name : String) :
    Option String :=
  act.Params.bind (fun o => (getAttribute name o.Attributes).bind (fun att => att.DefaultValue))

/-- The description of a parameter of an action. -/
def ActionDefinition.paramDescription (act : ActionDefinition) (name : String) :
    Option String :=
  act.Params.bind (fun o => (getAttribute name o.Attributes).map (fun att => att.Description))

/-- The view of a media type with the given name. -/
def MediaTypeDefinition.view? (mt : MediaTypeDefinition) (name : String) :
    Option ViewDefinition :=
  mt.Views.find? (fun v => v.Name = name)

/-- The responses of an action: HTTP status and identifier of the media type of the body
(empty when the response has none), in declaration order. -/
def ActionDefinition.responseMediaTypes (act : ActionDefinition) : List (Nat × String) :=
  act.Responses.map (fun r => (r.Status, r.MediaType))

/-- The HTTP statuses of the responses of an action, in declaration order. -/
def ActionDefinition.statuses (act : ActionDefinition) : List Nat :=
  act.Responses.map (fun r => r.Status)

/-! ## Paths

Go's `path.Clean` and `path.Join`, and the full path goa gives a route
(`RouteDefinition.FullPath`): a route whose path starts with `//` is absolute, any other
path is joined to the full path of the resource. -/

/-- Cuts a path at every `/`. -/
def splitPath : List Char → List (List Char)
  | [] => [[]]
  | c :: cs =>
    if c = '/' then [] :: splitPath cs
    else
      match splitPath cs with
      | [] => [[c]]
      | seg :: segs => (c :: seg) :: segs

/-- One element of a path being cleaned; `stack` holds the elements kept so far, last
first. Empty elements and `.` are dropped, `..` removes the element before it (at the
start it is dropped in a rooted path and kept otherwise). -/
def cleanStep (rooted : Bool) (stack : List (List Char)) (seg : List Char) :
    List (List Char) :=
  if seg = [] ∨ seg = ['.'] then stack
  else if seg = ['.', '.'] then
    match stack with
    | [] => if rooted then [] else [seg]
    | top :: below => if top = ['.', '.'] then seg :: stack else below
  else seg :: stack

/-- The elements of a cleaned path, first to last. -/
def cleanElements (rooted : Bool) (p : List Char) : List (List Char) :=
  ((splitPath p).foldl (cleanStep rooted) []).reverse

/-- Go's `path.Clean`. -/
def pathClean (p : String) : String :=
  let rooted := p.data.head? = some '/'
  let body := (if rooted then ['/'] else []) ++ List.intercalate ['/'] (cleanElements rooted p.data)
  if body = [] then "." else String.mk body

/-- Go's `path.Join`: empty elements are ignored, the rest is joined with `/` and
cleaned; the join of nothing is the empty string. -/
def pathJoin (elems : List String) : String :=
  match elems.filter (fun e => e ≠ "") with
  | [] => ""
  | es => pathClean (String.mk (List.intercalate ['/'] (es.map String.data)))

/-- The length of a character in UTF-8. -/
def utf8Length (c : Char) : Nat :=
  if c.toNat < 128 then 1 else if c.toNat < 2048 then 2 else if c.toNat < 65536 then 3 else 4

/-- The `Clean` of package `httppath`, which goa applies to full paths: the result is
rooted (the empty path is `/`); it ends in a slash when it has an element and the
argument either is longer than two bytes and ends in a slash or ends in the element
`.`. -/
def httppathClean (p : String) : String :=
  let elements := cleanElements true p.data
  let trailing :=
    (decide (2 < (p.data.map utf8Length).sum) && (p.data.getLast? == some '/'))
      || ((splitPath p.data).getLast? == some ['.'])
  let body := '/' :: List.intercalate ['/'] elements
  String.mk (if trailing && !elements.isEmpty then body ++ ['/'] else body)

/-- goa's `RouteDefinition.IsAbsolute`. -/
def RouteDefinition.IsAbsolute (r : RouteDefinition) : Bool :=
  ['/', '/'].isPrefixOf r.Path.data

/-- goa's `ResourceDefinition.FullPath` for a resource without parent resource;
`apiBasePath` is the base path of the API, declared in another file of the design. -/
def ResourceDefinition.FullPath (apiBasePath : String) (res : ResourceDefinition) : String :=
  if ['/', '/'].isPrefixOf res.BasePath.data then httppathClean res.BasePath
  else httppathClean (pathJoin [apiBasePath, res.BasePath])

/-- goa's `RouteDefinition.FullPath`; the slash at the end of a route path, which
`path.Join` removes, is put back before the path is cleaned. -/
def RouteDefinition.FullPath (apiBasePath : String) (res : ResourceDefinition)
    (r : RouteDefinition) : String :=
  if r.IsAbsolute then httppathClean (String.mk (r.Path.data.drop 1))
  else
    let joined := pathJoin [res.FullPath apiBasePath, r.Path]
    httppathClean (if r.Path.data.getLast? == some '/' then joined ++ "/" else joined)

/-- The method and full path of every route of an action. -/
def ActionDefinition.endpoints (apiBasePath : String) (res : ResourceDefinition)
    (act : ActionDefinition) : List (String × String) :=
  act.Routes.map (fun r => (r.Verb, r.FullPath apiBasePath res))

/-- The method and full path of every route of a resource, action by action. -/
def ResourceDefinition.endpoints (apiBasePath : String) (res : ResourceDefinition) :
    List (String × String) :=
  (res.Actions.map (fun act => act.endpoints apiBasePath res)).flatten

end Design

namespace Design

/-! ## Declared validation

The request contexts and payload types that goa generates from the design (package `app`)
are not among the sources. What the design declares for them is modelled here: a required
name has to be there, a value has to be of the declared type, and a value of an attribute
with an `Enum` has to be one of the listed values. -/

/-- A value of a request body. -/
inductive Value where
  | String (s : String)
  | Boolean (b : Bool)
  | Number (n : Int)
  | Other
deriving DecidableEq, Repr

/-- What a request can fail the declared validation with. -/
inductive ValidationError where
  | MissingRequired (name : String)
  | InvalidType (name : String)
  | InvalidEnumValue (name : String)
deriving DecidableEq, Repr

/-- The value a request gives for a name. -/
def lookupValue {α : Type} (name : String) : List (String × α) → Option α
  | [] => none
  | (n, v) :: rest => if n = name then some v else lookupValue name rest

/-- Modelled from the spec: conformance of a value to a declared type (the generated
decoding of package `app` is missing); `Any` admits every value ("any" typed fields are
numeric-or-string), user types and arrays are not inspected. -/
def conforms : DataType → Value → Bool
  | .String, .String _ => true
  | .Boolean, .Boolean _ => true
  | .Any, _ => true
  | .ArrayOf _, .Other => true
  | .UserType _, .Other => true
  | _, _ => false

/-- Modelled from the spec: the checks on one attribute that is present (the generated
validation of package `app` is missing): its type, and membership in the `Enum` values
when the attribute has them. -/
def checkAttribute (name : String) (att : AttributeDefinition) (v : Value) :
    List ValidationError :=
  (if conforms att.DType v then [] else [ValidationError.InvalidType name]) ++
  (match att.Values with
   | none => []
   | some allowed =>
     match v with
     | .String s => if s ∈ allowed then [] else [ValidationError.InvalidEnumValue name]
     | _ => [ValidationError.InvalidEnumValue name])

/-- Modelled from the spec: the declared validation of an object (the generated
validation of package `app` is missing): every required name that the document lacks is
an error, and every declared attribute that is present is checked. The document passes
when the list of errors is empty. -/
def validateObject (o : ObjectDefinition) (doc : List (String × Value)) :
    List ValidationError :=
  ((o.Required.filter (fun n => (lookupValue n doc).isNone)).map
    ValidationError.MissingRequired) ++
  (o.Attributes.map (fun p =>
    match lookupValue p.1 doc with
    | none => []
    | some v => checkAttribute p.1 p.2 v)).flatten

/-- Go's `strconv.ParseBool`. -/
def parseBool (raw : String) : Option Bool :=
  if raw ∈ ["1", "t", "T", "TRUE", "true", "True"] then some true
  else if raw ∈ ["0", "f", "F", "FALSE", "false", "False"] then some false
  else none

/-- Modelled from the spec: the value of a raw query parameter for a declared type (the
generated request contexts of package `app` are missing): a `Boolean` parameter is parsed,
any other parameter is the string itself. -/
def decodeParam (type : DataType) (raw : String) : Value :=
  match type with
  | .Boolean =>
    match parseBool raw with
    | some b => Value.Boolean b
    | none => Value.String raw
  | _ => Value.String raw

/-- Modelled from the spec: the declared validation of the query parameters of a request
to an action (the generated request contexts of package `app` are missing). -/
def validateParams (act : ActionDefinition) (query : List (String × String)) :
    List ValidationError :=
  match act.Params with
  | none => []
  | some o =>
    validateObject o
      (query.map (fun q =>
        (q.1, decodeParam ((getAttribute q.1 o.Attributes).elim DataType.String
          (fun att => att.DType)) q.2)))

/-- Modelled from the spec: the declared validation of the body of a request to an
action (the generated payload types of package `app` are missing). -/
def validatePayload (act : ActionDefinition) (body : List (String × Value)) :
    List ValidationError :=
  match act.Payload with
  | none => []
  | some type => validateObject type.Object body

end Design

namespace Design

/-- Does the action declare a response of the given HTTP status? -/
def ActionDefinition.declares (act : ActionDefinition) (status : Nat) : Bool :=
  act.statuses.contains status

/-- Does the action declare a parameter that is required? -/
def ActionDefinition.hasRequiredParam (act : ActionDefinition) : Bool :=
  act.params.any (fun p => p.2.2)

/-- Does the action take a payload? -/
def ActionDefinition.hasPayload (act : ActionDefinition) : Bool :=
  act.Payload.isSome

/-- The names of the attributes of a media type. -/
def MediaTypeDefinition.attributeNames (mt : MediaTypeDefinition) : List String :=
  mt.Object.Attributes.map (fun p => p.1)

/-- The names of the attributes that a view of a media type exposes (none when the media
type has no view of that name). -/
def MediaTypeDefinition.viewNames (mt : MediaTypeDefinition) (view : String) : List String :=
  match mt.view? view with
  | none => []
  | some v => v.Object.Attributes.map (fun p => p.1)

end Design

/-! ## Handlers that are not among the sources

The handler of the keys action and the users controller are known here from the design,
from the specification and from `controller/users_blackbox_test.go` only. The parts of
them that the statements below are about are modelled. -/

namespace Controller

open Design

/-- Modelled from the spec: the handler of the keys action, `TokenController.Keys`
(`controller/token.go` is missing). The specification has the key store export its public
keys in the format `pem` or `jwk`; the design describes the parameter `format` as: if set
to "jwk" (used by default) the JSON Web Key format is used, if "pem" a PEM-like format.
`pemKeys` and `jwkKeys` are the two exports of the key store. -/
def Keys {κ : Type} (pemKeys jwkKeys : κ) (format : Option String) : κ :=
  if format = some "pem" then pemKeys else jwkKeys

/-- A URL whose query parameters are kept apart from the rest. -/
structure URL where
  Base : String
  Query : List (String × String)
deriving DecidableEq, Repr

/-- The digit of a value below sixteen in upper case hexadecimal. -/
def hexDigit (n : Nat) : Char :=
  ['0', '1', '2', '3', '4', '5', '6', '7', '8', '9', 'A', 'B', 'C', 'D', 'E', 'F'].getD n '0'

/-- The bytes of a character in UTF-8. -/
def utf8Bytes (c : Char) : List Nat :=
  let n := c.toNat
  if n < 128 then [n]
  else if n < 2048 then [192 + n / 64, 128 + n % 64]
  else if n < 65536 then [224 + n / 4096, 128 + n / 64 % 64, 128 + n % 64]
  else [240 + n / 262144, 128 + n / 4096 % 64, 128 + n / 64 % 64, 128 + n % 64]

/-- One character in Go's `url.QueryEscape`: letters, digits, `-`, `_`, `.` and `~` stay,
a space becomes `+`, every other byte becomes `%XX`. -/
def escapeChar (c : Char) : List Char :=
  if c.isAlphanum || c = '-' || c = '_' || c = '.' || c = '~' then [c]
  else if c = ' ' then ['+']
  else ((utf8Bytes c).map (fun b => ['%', hexDigit (b / 16), hexDigit (b % 16)])).flatten

/-- Go's `url.QueryEscape`. -/
def QueryEscape (s : String) : String :=
  String.mk ((s.data.map escapeChar).flatten)

/-- The encoded query of a URL: `key=value` pairs joined with `&`. -/
def encodeQuery : List (String × String) → String
  | [] => ""
  | [q] => QueryEscape q.1 ++ "=" ++ QueryEscape q.2
  | q :: rest => QueryEscape q.1 ++ "=" ++ QueryEscape q.2 ++ "&" ++ encodeQuery rest

/-- The URL as a string. -/
def URL.render (u : URL) : String :=
  if u.Query = [] then u.Base else u.Base ++ "?" ++ encodeQuery u.Query

/-- A redirect response: its HTTP status and its `Location` header. -/
structure RedirectResponse where
  Status : Nat
  Location : URL
deriving DecidableEq, Repr

/-- A stored verification code (`account.VerificationCode`): the user it was issued to
and the code. -/
structure VerificationCode where
  UserID : Nat
  Code : String
deriving DecidableEq, Repr

/-- The query of the tests, `VerificationCodeFilterByUserID`: the codes of one user. -/
def codesOfUser (codes : List VerificationCode) (userID : Nat) : List VerificationCode :=
  codes.filter (fun vc => vc.UserID = userID)

/-- Modelled from the spec: the message of the not-found error of the `errors` package
(missing), as the test of `VerifyEmail` shows it: `code with id 'ABCD' not found`. -/
def notFoundMessage (entity id : String) : String :=
  entity ++ " with id '" ++ id ++ "' not found"

/-- Modelled from the spec: the handler `UsersController.VerifyEmail`
(`controller/users.go` is missing). A code that is not stored gives a temporary redirect
to the configured URL with `verified=false` and the error message; a stored code gives a
temporary redirect to the configured URL with `verified=true` and is consumed: no stored
record carries it afterwards. The result is the response and the codes that remain
stored. -/
def VerifyEmail (redirectURL : String) (codes : List VerificationCode) (code : String) :
    RedirectResponse × List VerificationCode :=
  match codes.find? (fun vc => vc.Code = code) with
  | none =>
    ({ Status := 307,
       Location := { Base := redirectURL,
                     Query := [("verified", "false"), ("error", notFoundMessage "code" code)] } },
      codes)
  | some _ =>
    ({ Status := 307, Location := { Base := redirectURL, Query := [("verified", "true")] } },
      codes.filter (fun vc => vc.Code ≠ code))

/-- Modelled from the spec: what an update that changes the email of a user does to the
stored verification codes (`controller/users.go` and the email verification service are
missing). After the update exactly one verification code exists for the user: the
generated code is stored for the user in the place of the codes the user had. The test
`TestVerifyEmail/ok` shows one update of a new user. -/
def storeVerificationCode (codes : List VerificationCode) (userID : Nat)
    (generatedCode : String) : List VerificationCode :=
  codes.filter (fun vc => vc.UserID ≠ userID) ++ [{ UserID := userID, Code := generatedCode }]

/-- The map assignment `contextInformation[name] = v`. -/
def setValue (name : String) (v : Value) : List (String × Value) → List (String × Value)
  | [] => [(name, v)]
  | (n, old) :: rest =>
    if n = name then (name, v) :: rest else (n, old) :: setValue name v rest

/-- The map deletion `delete(contextInformation, name)`. -/
def deleteValue (name : String) : List (String × Value) → List (String × Value)
  | [] => []
  | (n, v) :: rest =>
    if n = name then deleteValue name rest else (n, v) :: deleteValue name rest

/-- Modelled from the spec: what an update does to the stored context information of a
user (`controller/users.go` is missing): each entry of the payload is merged into the
stored map, an entry with a value is assigned and an entry that is nil (`none`) is
deleted. -/
def patchContextInformation (stored : List (String × Value))
    (payload : List (String × Option Value)) : List (String × Value) :=
  payload.foldl
    (fun m entry =>
      match entry.2 with
      | none => deleteValue entry.1 m
      | some v => setValue entry.1 v m)
    stored

end Controller

namespace Controller

/-- Who makes a request: nobody known (no token), a user, or one of the two service
accounts of the tests, `TestNotificationIdentity` and `TestOnlineRegistrationAppIdentity`. -/
inductive Caller where
  | anonymous
  | user (identityID : Nat)
  | notificationService
  | onlineRegistrationService
deriving DecidableEq, Repr

/-- The fields of a stored user (`account.User`) that the statements are about. -/
structure User where
  ID : Nat
  Email : String
  EmailPrivate : Bool
  EmailVerified : Bool
deriving DecidableEq, Repr

/-- The attributes of a user in a response (`app.UserData`) that the statements are
about. -/
structure UserDataAttributes where
  Email : String
  EmailPrivate : Bool
deriving DecidableEq, Repr

/-- Modelled from the spec: the conversion of a stored user to the user of a response
(`controller/users.go` is missing), as the tests `view hidden email address` and
`hide email address` show it: the email of a user whose email is private is the empty
string unless the response may show it, and `emailPrivate` is passed on. -/
def ConvertToAppUser (user : User) (showPrivateEmail : Bool) : UserDataAttributes :=
  { Email := if user.EmailPrivate && !showPrivateEmail then "" else user.Email,
    EmailPrivate := user.EmailPrivate }

/-- Modelled from the spec: the handler `UsersController.Show` (`controller/users.go` is
missing): a private email is shown to the notification service account only. -/
def ShowUsers (caller : Caller) (user : User) : UserDataAttributes :=
  ConvertToAppUser user (decide (caller = Caller.notificationService))

/-- Modelled from the spec: the handler `UsersController.List` (`controller/users.go` is
missing) on the users it has selected. The tests call it without a token only; what it
shows to the notification service account is left open by `showsToNotification`. -/
def ListUsers (showsToNotification : Bool) (caller : Caller) (users : List User) :
    List UserDataAttributes :=
  users.map (fun user =>
    ConvertToAppUser user
      (showsToNotification && decide (caller = Caller.notificationService)))

/-- Modelled from the spec: the user in the response of `UsersController.Update`
(`controller/users.go` is missing), which goes to the user the update is about: the email
is shown. -/
def UpdateUsersResponse (user : User) : UserDataAttributes :=
  ConvertToAppUser user true

/-- How an update is answered: `UpdateUsersOK`, `UpdateUsersBadRequest` or
`UpdateUsersForbidden` in the tests. -/
inductive UpdateStatus where
  | OK
  | BadRequest
  | Forbidden
deriving DecidableEq, Repr

/-- The HTTP status of an answer. -/
def UpdateStatus.code : UpdateStatus → Nat
  | .OK => 200
  | .BadRequest => 400
  | .Forbidden => 403

/-- The fields of a stored identity (`account.Identity`) that the statements are about. -/
structure Identity where
  Username : String
  RegistrationCompleted : Bool
deriving DecidableEq, Repr

/-- The attributes of the payload of an update that concern the identity; `none` is an
attribute that the payload does not carry. -/
structure UpdateIdentityAttributes where
  Username : Option String
  RegistrationCompleted : Option Bool
deriving DecidableEq, Repr

/-- Modelled from the spec: the validity of a username (`controller/users.go` is
missing). The test `invalid username` has the username of one space rejected: a username
is taken as valid when it has a character that is not a space. -/
def isUsernameValid (username : String) : Bool :=
  username.data.any (fun c => c ≠ ' ')

/-- Modelled from the spec: what `UsersController.Update` does with the username of the
payload (`controller/users.go` is missing); `others` are the usernames of the other
identities. The current username changes nothing. A different username is forbidden once
registration is completed (test `username multiple times forbidden`), is a bad request
when it is not valid or belongs to another identity (tests `invalid username` and
`existing username`), and is stored otherwise. -/
def updateUsername (others : List String) (identity : Identity) (username : Option String) :
    UpdateStatus × Identity :=
  match username with
  | none => (UpdateStatus.OK, identity)
  | some name =>
    if name = identity.Username then (UpdateStatus.OK, identity)
    else if identity.RegistrationCompleted then (UpdateStatus.Forbidden, identity)
    else if !isUsernameValid name then (UpdateStatus.BadRequest, identity)
    else if name ∈ others then (UpdateStatus.BadRequest, identity)
    else (UpdateStatus.OK, { identity with Username := name })

/-- Modelled from the spec: what `UsersController.Update` does with `registrationCompleted`
of the payload (`controller/users.go` is missing): `true` completes the registration and
`false` is a bad request (test `registration completed bad request`). -/
def updateRegistrationCompleted (identity : Identity) (completed : Option Bool) :
    UpdateStatus × Identity :=
  match completed with
  | none => (UpdateStatus.OK, identity)
  | some true => (UpdateStatus.OK, { identity with RegistrationCompleted := true })
  | some false => (UpdateStatus.BadRequest, identity)

/-- Modelled from the spec: the part of `UsersController.Update` that concerns the
identity (`controller/users.go` is missing): the username, then `registrationCompleted`;
an update that is rejected leaves the identity as it was. -/
def updateIdentity (others : List String) (identity : Identity)
    (payload : UpdateIdentityAttributes) : UpdateStatus × Identity :=
  match updateUsername others identity payload.Username with
  | (UpdateStatus.OK, renamed) =>
    match updateRegistrationCompleted renamed payload.RegistrationCompleted with
    | (UpdateStatus.OK, updated) => (UpdateStatus.OK, updated)
    | (status, _) => (status, identity)
  | (status, _) => (status, identity)

/-- Is the email an address at `redhat.com`? -/
def isRedHatAddress (email : String) : Bool :=
  "@redhat.com".data.isSuffixOf email.data

/-- Modelled from the spec: how `UsersController.Update` answers an update of the feature
level (`controller/users.go` is missing): the level `internal` is forbidden unless the
email of the user is verified and is an address at `redhat.com` (tests
`internal level allowed`, `internal level for non-employee` and
`internal level for non-verified employee`). -/
def updateFeatureLevel (user : User) (featureLevel : String) : UpdateStatus :=
  if featureLevel = "internal" && !(user.EmailVerified && isRedHatAddress user.Email) then
    UpdateStatus.Forbidden
  else UpdateStatus.OK

end Controller

/-! ## Sample inputs -/

namespace Controller

/-- Sample packages: an error is the triple of parameter, value and expected value, and
the world is the list of responses written. -/
def samplePackages : Packages Unit (String × String × Option String) String (List String) :=
  { NewBadParameterError := fun param value => (param, value, none)
    Expected := fun err expected => (err.1, err.2.1, some expected)
    JSONErrorResponse := fun _ err w => (none, w ++ ["400 " ++ err.1]) }

/-- A sample controller whose OAuth service answers with a redirect. -/
def sampleController : AuthorizecallbackController Unit String (List String) :=
  { Auth := { PerformAuthorizeCallback := fun _ w => (none, w ++ ["307"]) } }

/-- A sample request that carries a code and no state. -/
def sampleContextWithoutState : AuthorizecallbackAuthorizecallbackContext Unit :=
  { Code := some "abc123", State := none, RequestData := () }

end Controller

namespace Design

/-- A sample error media type to stand for `JSONAPIErrors`. -/
def sampleJSONAPIErrors : MediaTypeDefinition :=
  MediaType "application/vnd.api+json" [.TypeName "JSONAPIErrors"]

end Design

namespace Controller

open Design

/-- The redirect URL that the tests of `VerifyEmail` are configured with. -/
def testRedirectURL : String := "https://prod-preview.openshift.io/_home"

/-- A sample generated verification code. -/
def sampleGeneratedCode : String := "6ba7b810-9dad-11d1-80b4-00c04fd430c8"

/-- A sample store of verification codes: user 1 has a pending code of an earlier update
and user 2 has a code. -/
def samplePendingCodes : List VerificationCode :=
  [{ UserID := 1, Code := "1c9d4f0a-7b2e-4c6d-8f1a-2e3d4c5b6a79" },
    { UserID := 2, Code := "0e7c6a52-1f3b-4d55-9a3e-5b8f2c4d6e10" }]

/-- The context information stored by the first update of the test `patch context info`. -/
def testStoredContextInformation : List (String × Value) :=
  [("last_visited", Value.String "yesterday"), ("count", Value.Number 3)]

/-- The payload of the second update of the test `patch context info`. -/
def testPatchedContextInformation : List (String × Option Value) :=
  [("count", some (Value.Number 5))]

/-- The context information stored by the first update of the test
`unset variable in context information`. -/
def testFullContextInformation : List (String × Value) :=
  [("last_visited", Value.String "yesterday"),
    ("space", Value.String "3d6dab8d-f204-42e8-ab29-cdb1c93130ad"),
    ("rate", Value.Number 100), ("count", Value.Number 3)]

/-- The payload of the second update of the test `unset variable in context information`. -/
def testUnsetContextInformation : List (String × Option Value) :=
  [("last_visited", none),
    ("space", some (Value.String "3d6dab8d-f204-42e8-ab29-cdb1c93130ad")),
    ("rate", some (Value.Number 100)), ("count", some (Value.Number 3))]

end Controller

namespace Controller

/-- A sample request that carries both a state and a code. -/
def sampleContextComplete : AuthorizecallbackAuthorizecallbackContext Unit :=
  { Code := some "abc123", State := some "5f0c", RequestData := () }

/-- A sample request that carries a state and no code. -/
def sampleContextWithoutCode : AuthorizecallbackAuthorizecallbackContext Unit :=
  { Code := none, State := some "5f0c", RequestData := () }

end Controller

namespace Controller

/-- A user of the email tests after the email has been made private. -/
def testPrivateUser : User :=
  { ID := 7, Email := "a1b2primaryForUpdat7e@example.com", EmailPrivate := true,
    EmailVerified := false }

/-- A new identity of the username tests: registration not completed. -/
def testNewIdentity : Identity :=
  { Username := "TestUser-3f2a", RegistrationCompleted := false }

/-- The user of the test `internal level allowed`. -/
def testEmployee : User :=
  { ID := 8, Email := "c3d4user@redhat.com", EmailPrivate := false, EmailVerified := true }

/-- The user of the test `internal level for non-employee`. -/
def testNonEmployee : User :=
  { ID := 9, Email := "e5f6@foo.com", EmailPrivate := false, EmailVerified := true }

/-- The user of the test `internal level for non-verified employee`. -/
def testNonVerifiedEmployee : User :=
  { ID := 10, Email := "a7b8@redhat.com", EmailPrivate := false, EmailVerified := false }

end Controller

/-! ## Theorems -/

namespace Controller

/-- C1: for every request context in which `State` is nil or `Code` is nil, `Authorizecallback`
returns what `jsonapi.JSONErrorResponse` returns for a bad-parameter error, leaves the
world as that call leaves it, and makes that call only: `Auth.PerformAuthorizeCallback` is
not invoked. -/
theorem Authorizecallback_missing_parameter_fails_fast {δ β ε σ : Type}
    (pkg : Packages δ β ε σ) (c : AuthorizecallbackController δ ε σ)
    (ctx : AuthorizecallbackAuthorizecallbackContext δ) (w : σ)
    (h : ctx.State = none ∨ ctx.Code = none) :
    ∃ err : β, IsBadParameterError pkg err ∧
      (Authorizecallback pkg c ctx w).result = (pkg.JSONErrorResponse ctx err w).1 ∧
      (Authorizecallback pkg c ctx w).world = (pkg.JSONErrorResponse ctx err w).2 ∧
      (Authorizecallback pkg c ctx w).calls = [Call.JSONErrorResponse ctx err] ∧
      ∀ call ∈ (Authorizecallback pkg c ctx w).calls,
        call.isPerformAuthorizeCallback = false := by
  cases hs : ctx.State with
  | none =>
    refine ⟨pkg.Expected (pkg.NewBadParameterError "state" "nil") "State",
      ⟨"state", "State", rfl⟩, ?_, ?_, ?_, ?_⟩ <;>
      simp [Authorizecallback, hs, Call.isPerformAuthorizeCallback]
  | some s =>
    have hc : ctx.Code = none := by
      rcases h with h | h
      · simp [hs] at h
      · exact h
    refine ⟨pkg.Expected (pkg.NewBadParameterError "code" "nil") "Code",
      ⟨"code", "Code", rfl⟩, ?_, ?_, ?_, ?_⟩ <;>
      simp [Authorizecallback, hs, hc, Call.isPerformAuthorizeCallback]

/-- C1 at a sample request without state: the handler answers with the bad-parameter
response and the OAuth service is not called. -/
theorem Authorizecallback_missing_parameter_fails_fast_witness :
    (sampleContextWithoutState.State = none ∨ sampleContextWithoutState.Code = none) ∧
    ∃ err, IsBadParameterError samplePackages err ∧
      (Authorizecallback samplePackages sampleController sampleContextWithoutState []).result
        = (samplePackages.JSONErrorResponse sampleContextWithoutState err []).1 ∧
      (Authorizecallback samplePackages sampleController sampleContextWithoutState []).world
        = (samplePackages.JSONErrorResponse sampleContextWithoutState err []).2 ∧
      (Authorizecallback samplePackages sampleController sampleContextWithoutState []).calls
        = [Call.JSONErrorResponse sampleContextWithoutState err] ∧
      ∀ call ∈ (Authorizecallback samplePackages sampleController
          sampleContextWithoutState []).calls,
        call.isPerformAuthorizeCallback = false :=
  ⟨Or.inl rfl,
    Authorizecallback_missing_parameter_fails_fast samplePackages sampleController
      sampleContextWithoutState [] (Or.inl rfl)⟩

end Controller

namespace Design

/-- Decoding the values of a document does not change which names it has. -/
theorem lookupValue_map_eq_none {α β : Type} (f : String × α → β) (name : String)
    (doc : List (String × α)) :
    lookupValue name (doc.map (fun q => (q.1, f q))) = none ↔ lookupValue name doc = none := by
  induction doc with
  | nil => simp [lookupValue]
  | cons q rest ih =>
    obtain ⟨n, v⟩ := q
    by_cases hn : n = name
    · simp [lookupValue, hn]
    · simp [lookupValue, hn, ih]

/-- A required name that the document lacks is reported. -/
theorem validateObject_missing (o : ObjectDefinition) (doc : List (String × Value))
    (name : String) (hreq : name ∈ o.Required) (h : lookupValue name doc = none) :
    ValidationError.MissingRequired name ∈ validateObject o doc := by
  unfold validateObject
  refine List.mem_append_left _ (List.mem_map.mpr ⟨name, ?_, rfl⟩)
  simp [List.mem_filter, hreq, h]

/-- A required parameter that the query lacks is reported. -/
theorem validateParams_missing (act : ActionDefinition) (o : ObjectDefinition)
    (hparams : act.Params = some o) (name : String) (hreq : name ∈ o.Required)
    (query : List (String × String)) (h : lookupValue name query = none) :
    ValidationError.MissingRequired name ∈ validateParams act query := by
  unfold validateParams
  rw [hparams]
  exact validateObject_missing o _ name hreq ((lookupValue_map_eq_none _ name query).mpr h)

/-- A value outside the `Enum` of a present attribute is reported. -/
theorem validateObject_enum (o : ObjectDefinition) (doc : List (String × Value))
    (name : String) (att : AttributeDefinition) (allowed : List String) (v : Value)
    (hatt : (name, att) ∈ o.Attributes) (hvalues : att.Values = some allowed)
    (hv : lookupValue name doc = some v) (hout : ∀ s ∈ allowed, v ≠ Value.String s) :
    ValidationError.InvalidEnumValue name ∈ validateObject o doc := by
  unfold validateObject
  refine List.mem_append_right _ (List.mem_flatten.mpr ⟨checkAttribute name att v, ?_, ?_⟩)
  · refine List.mem_map.mpr ⟨(name, att), hatt, ?_⟩
    simp [hv]
  · unfold checkAttribute
    refine List.mem_append_right _ ?_
    rw [hvalues]
    cases v with
    | String s =>
      have hs : s ∉ allowed := fun hmem => hout s hmem rfl
      simp [hs]
    | Boolean b => simp
    | Number n => simp
    | Other => simp

/-- The full path of a route depends on the resource through its base path only. -/
theorem RouteDefinition.FullPath_of_BasePath (apiBasePath : String) (res : ResourceDefinition)
    (base : String) (h : res.BasePath = base) (r : RouteDefinition) :
    r.FullPath apiBasePath res
      = r.FullPath apiBasePath { Name := "", BasePath := base, MediaType := "", Actions := [] } := by
  simp [RouteDefinition.FullPath, ResourceDefinition.FullPath, h]

/-- The endpoints of an action depend on the resource through its base path only. -/
theorem ActionDefinition.endpoints_of_BasePath (apiBasePath : String)
    (res : ResourceDefinition) (base : String) (h : res.BasePath = base)
    (act : ActionDefinition) :
    act.endpoints apiBasePath res
      = act.endpoints apiBasePath { Name := "", BasePath := base, MediaType := "", Actions := [] } := by
  simp [ActionDefinition.endpoints, RouteDefinition.FullPath_of_BasePath apiBasePath res base h]

/-- C2: the callback action (GET /token/link/callback) declares exactly the two
parameters `code` and `state`, both of type String and both required, and a request
whose query lacks `code` or lacks `state` fails the declared validation (the list of
validation errors is not empty). -/
theorem callback_declares_code_and_state_required (JSONAPIErrors : MediaTypeDefinition) :
    ∃ act, (token JSONAPIErrors).action? "callback" = some act ∧
      act.endpoints "" (token JSONAPIErrors) = [("GET", "/token/link/callback")] ∧
      act.params = [("code", DataType.String, true), ("state", DataType.String, true)] ∧
      ∀ query : List (String × String),
        lookupValue "code" query = none ∨ lookupValue "state" query = none →
        validateParams act query ≠ [] := by
  refine ⟨_, rfl, ?_, rfl, fun query h => ?_⟩
  · rw [ActionDefinition.endpoints_of_BasePath "" (token JSONAPIErrors) "/token" rfl]
    rfl
  rcases h with h | h
  · exact List.ne_nil_of_mem
      (validateParams_missing _ _ rfl "code" (List.mem_cons_self _ _) query h)
  · exact List.ne_nil_of_mem
      (validateParams_missing _ _ rfl "state"
        (List.mem_cons_of_mem _ (List.mem_cons_self _ _)) query h)

end Design

namespace Design

/-- C3, as stated, fails: with the sample error media type the callback action declares a
response of status 500, which is neither 307 nor 400. -/
theorem callback_declares_internal_server_error :
    ∃ act, (token sampleJSONAPIErrors).action? "callback" = some act ∧
      500 ∈ act.statuses ∧
      ¬ (∀ s ∈ act.statuses, s = 307 ∨ s = 400) := by
  refine ⟨_, rfl, ?_, ?_⟩
  · show 500 ∈ [307, 400, 500]
    decide
  · intro h
    have h500 := h 500 (show 500 ∈ [307, 400, 500] by decide)
    omega

/-- C3, amended: the callback action (GET /token/link/callback) declares exactly three
responses: 307 Temporary Redirect without a body media type, 400 Bad Request and 500
Internal Server Error, the last two with the `JSONAPIErrors` media type. -/
theorem callback_declares_three_responses (JSONAPIErrors : MediaTypeDefinition) :
    ∃ act, (token JSONAPIErrors).action? "callback" = some act ∧
      act.endpoints "" (token JSONAPIErrors) = [("GET", "/token/link/callback")] ∧
      act.responses =
        [(307, none), (400, some (MediaRef.Of JSONAPIErrors)),
          (500, some (MediaRef.Of JSONAPIErrors))] ∧
      act.statuses = [307, 400, 500] := by
  refine ⟨_, rfl, ?_, rfl, rfl⟩
  rw [ActionDefinition.endpoints_of_BasePath "" (token JSONAPIErrors) "/token" rfl]
  rfl

/-- C4: the token resource declares exactly eight actions, each with exactly one route;
joined to the base path `/token` their method and path pairs are GET /token,
DELETE /token, POST /token, GET /token/keys, GET /token/generate, POST /token/refresh,
GET /token/link and GET /token/link/callback; the callback route is written
`/link/callback`, is not absolute, and resolves under `/token`; no pair occurs twice. -/
theorem token_declares_eight_routes (JSONAPIErrors : MediaTypeDefinition) :
    (token JSONAPIErrors).BasePath = "/token" ∧
    (token JSONAPIErrors).Actions.length = 8 ∧
    (token JSONAPIErrors).Actions.map (fun act => act.Name)
      = ["Retrieve", "Delete", "Exchange", "keys", "generate", "refresh", "link",
          "callback"] ∧
    (token JSONAPIErrors).Actions.map (fun act => act.Routes.length)
      = [1, 1, 1, 1, 1, 1, 1, 1] ∧
    (token JSONAPIErrors).endpoints ""
      = [("GET", "/token"), ("DELETE", "/token"), ("POST", "/token"),
          ("GET", "/token/keys"), ("GET", "/token/generate"), ("POST", "/token/refresh"),
          ("GET", "/token/link"), ("GET", "/token/link/callback")] ∧
    ((token JSONAPIErrors).endpoints "").Nodup ∧
    ((token JSONAPIErrors).action? "callback").map (fun act => act.Routes)
      = some [GET "/link/callback"] ∧
    (GET "/link/callback").IsAbsolute = false ∧
    (GET "/link/callback").FullPath "" (token JSONAPIErrors) = "/token/link/callback" := by
  have hendpoints : (token JSONAPIErrors).endpoints ""
      = [("GET", "/token"), ("DELETE", "/token"), ("POST", "/token"),
          ("GET", "/token/keys"), ("GET", "/token/generate"), ("POST", "/token/refresh"),
          ("GET", "/token/link"), ("GET", "/token/link/callback")] := by
    unfold ResourceDefinition.endpoints
    simp only [ActionDefinition.endpoints_of_BasePath "" (token JSONAPIErrors) "/token" rfl]
    rfl
  refine ⟨rfl, rfl, rfl, rfl, hendpoints, ?_, rfl, rfl, ?_⟩
  · rw [hendpoints]
    decide
  · rw [RouteDefinition.FullPath_of_BasePath "" (token JSONAPIErrors) "/token" rfl]
    rfl

end Design

namespace Design

/-- A value outside the `Enum` of a present attribute of the payload is reported. -/
theorem validatePayload_enum (act : ActionDefinition) (type : UserTypeDefinition)
    (hpayload : act.Payload = some type) (body : List (String × Value))
    (name : String) (att : AttributeDefinition) (allowed : List String) (v : Value)
    (hatt : (name, att) ∈ type.Object.Attributes) (hvalues : att.Values = some allowed)
    (hv : lookupValue name body = some v) (hout : ∀ s ∈ allowed, v ≠ Value.String s) :
    ValidationError.InvalidEnumValue name ∈ validatePayload act body := by
  unfold validatePayload
  rw [hpayload]
  exact validateObject_enum type.Object body name att allowed v hatt hvalues hv hout

/-- C5: the Exchange action (POST /token) takes the `TokenExchange` payload, whose
attributes are exactly `grant_type`, `client_id`, `client_secret`, `redirect_uri` and
`code`, all of type String; `grant_type` is restricted to `client_credentials` and
`authorization_code`, and a body whose `grant_type` is any other value fails the declared
validation; the action declares exactly the responses 200 with the `OauthToken` media
type, 401, 400 and 500. -/
theorem Exchange_payload_and_responses (JSONAPIErrors : MediaTypeDefinition) :
    ∃ act, (token JSONAPIErrors).action? "Exchange" = some act ∧
      act.endpoints "" (token JSONAPIErrors) = [("POST", "/token")] ∧
      act.Payload = some tokenExchange ∧
      tokenExchange.TypeName = "TokenExchange" ∧
      tokenExchange.Object.Attributes.map (fun p => (p.1, p.2.DType))
        = [("grant_type", DataType.String), ("client_id", DataType.String),
            ("client_secret", DataType.String), ("redirect_uri", DataType.String),
            ("code", DataType.String)] ∧
      tokenExchange.Object.enumOf "grant_type"
        = some ["client_credentials", "authorization_code"] ∧
      (∀ (body : List (String × Value)) (v : Value),
        lookupValue "grant_type" body = some v →
        v ≠ Value.String "authorization_code" → v ≠ Value.String "client_credentials" →
        validatePayload act body ≠ []) ∧
      act.responses =
        [(200, some (MediaRef.Of OauthToken)), (401, some (MediaRef.Of JSONAPIErrors)),
          (400, some (MediaRef.Of JSONAPIErrors)), (500, some (MediaRef.Of JSONAPIErrors))] ∧
      OauthToken.TypeName = "OauthToken" := by
  refine ⟨_, rfl, ?_, rfl, rfl, rfl, rfl, fun body v hv hcode hcred => ?_, rfl, rfl⟩
  · rw [ActionDefinition.endpoints_of_BasePath "" (token JSONAPIErrors) "/token" rfl]
    rfl
  · refine List.ne_nil_of_mem
      (validatePayload_enum _ tokenExchange rfl body "grant_type" _
        ["client_credentials", "authorization_code"] v (List.mem_cons_self _ _) rfl hv ?_)
    intro s hs
    simp only [List.mem_cons, List.mem_singleton, List.not_mem_nil, or_false] at hs
    rcases hs with rfl | rfl
    · exact hcred
    · exact hcode

/-- C6: the Retrieve action (GET /token) declares exactly the parameters `for` (String,
required) and `force_pull` (Boolean, optional), and exactly the responses 200 with the
`ExternalToken` media type, 400, 500 and 401. -/
theorem Retrieve_params_and_responses (JSONAPIErrors : MediaTypeDefinition) :
    ∃ act, (token JSONAPIErrors).action? "Retrieve" = some act ∧
      act.endpoints "" (token JSONAPIErrors) = [("GET", "/token")] ∧
      act.params = [("for", DataType.String, true), ("force_pull", DataType.Boolean, false)] ∧
      act.responses =
        [(200, some (MediaRef.Of externalToken)), (400, some (MediaRef.Of JSONAPIErrors)),
          (500, some (MediaRef.Of JSONAPIErrors)), (401, some (MediaRef.Of JSONAPIErrors))] ∧
      externalToken.TypeName = "ExternalToken" := by
  refine ⟨_, rfl, ?_, rfl, rfl, rfl⟩
  rw [ActionDefinition.endpoints_of_BasePath "" (token JSONAPIErrors) "/token" rfl]
  rfl

/-- C7, as stated, fails: with the sample error media type the 200 response of the
Delete action has a body media type, the default media type `text/plain` of the
resource. -/
theorem Delete_OK_response_is_text_plain :
    ∃ act, (token sampleJSONAPIErrors).action? "Delete" = some act ∧
      (200, "text/plain") ∈ act.responseMediaTypes ∧
      (200, "") ∉ act.responseMediaTypes := by
  refine ⟨_, rfl, ?_, ?_⟩
  · show (200, "text/plain") ∈
      [(200, "text/plain"), (400, "application/vnd.api+json"),
        (500, "application/vnd.api+json"), (401, "application/vnd.api+json")]
    decide
  · show (200, "") ∉
      [(200, "text/plain"), (400, "application/vnd.api+json"),
        (500, "application/vnd.api+json"), (401, "application/vnd.api+json")]
    decide

/-- C7, amended: the Delete action (DELETE /token) declares exactly one parameter, `for`
(String, required), and exactly the responses 200, 400, 500 and 401; the 200 response is
declared without a media type and has the default media type `text/plain` of the token
resource, the other three have the `JSONAPIErrors` media type. -/
theorem Delete_params_and_response_media_types (JSONAPIErrors : MediaTypeDefinition) :
    ∃ act, (token JSONAPIErrors).action? "Delete" = some act ∧
      act.endpoints "" (token JSONAPIErrors) = [("DELETE", "/token")] ∧
      act.params = [("for", DataType.String, true)] ∧
      act.statuses = [200, 400, 500, 401] ∧
      (token JSONAPIErrors).MediaType = "text/plain" ∧
      act.responseMediaTypes =
        [(200, "text/plain"), (400, JSONAPIErrors.Identifier),
          (500, JSONAPIErrors.Identifier), (401, JSONAPIErrors.Identifier)] := by
  refine ⟨_, rfl, ?_, rfl, rfl, rfl, rfl⟩
  rw [ActionDefinition.endpoints_of_BasePath "" (token JSONAPIErrors) "/token" rfl]
  rfl

/-- C8: the link action (GET /token/link) declares exactly the parameters `for` (String,
required) and `redirect` (String, optional), and exactly the responses 200 with the
`RedirectLocation` media type, whose single attribute `redirect_location` is a required
String, 401, 400 and 500. -/
theorem link_params_and_responses (JSONAPIErrors : MediaTypeDefinition) :
    ∃ act, (token JSONAPIErrors).action? "link" = some act ∧
      act.endpoints "" (token JSONAPIErrors) = [("GET", "/token/link")] ∧
      act.params = [("for", DataType.String, true), ("redirect", DataType.String, false)] ∧
      act.responses =
        [(200, some (MediaRef.Of redirectLocation)), (401, some (MediaRef.Of JSONAPIErrors)),
          (400, some (MediaRef.Of JSONAPIErrors)), (500, some (MediaRef.Of JSONAPIErrors))] ∧
      redirectLocation.TypeName = "RedirectLocation" ∧
      redirectLocation.Object.summary = [("redirect_location", DataType.String, true)] := by
  refine ⟨_, rfl, ?_, rfl, rfl, rfl, rfl⟩
  rw [ActionDefinition.endpoints_of_BasePath "" (token JSONAPIErrors) "/token" rfl]
  rfl

/-- C9: the refresh action (POST /token/refresh) takes the `RefreshToken` payload, whose
only attribute is `refresh_token` (String), and declares exactly the responses 200 with
the `AuthToken` media type, 401, 400 and 500. -/
theorem refresh_payload_and_responses (JSONAPIErrors : MediaTypeDefinition) :
    ∃ act, (token JSONAPIErrors).action? "refresh" = some act ∧
      act.endpoints "" (token JSONAPIErrors) = [("POST", "/token/refresh")] ∧
      act.Payload = some refreshToken ∧
      refreshToken.TypeName = "RefreshToken" ∧
      refreshToken.Object.Attributes.map (fun p => (p.1, p.2.DType))
        = [("refresh_token", DataType.String)] ∧
      act.responses =
        [(200, some (MediaRef.Of AuthToken)), (401, some (MediaRef.Of JSONAPIErrors)),
          (400, some (MediaRef.Of JSONAPIErrors)), (500, some (MediaRef.Of JSONAPIErrors))] ∧
      AuthToken.TypeName = "AuthToken" := by
  refine ⟨_, rfl, ?_, rfl, rfl, rfl, rfl, rfl⟩
  rw [ActionDefinition.endpoints_of_BasePath "" (token JSONAPIErrors) "/token" rfl]
  rfl

/-- C10: the keys action (GET /token/keys) declares exactly one parameter, `format`,
which is an optional String restricted to the two values `pem` and `jwk`, and exactly one
response, 200 with the `PublicKeys` media type: no response of status 400 or above. -/
theorem keys_params_and_responses (JSONAPIErrors : MediaTypeDefinition) :
    ∃ act, (token JSONAPIErrors).action? "keys" = some act ∧
      act.endpoints "" (token JSONAPIErrors) = [("GET", "/token/keys")] ∧
      act.params = [("format", DataType.String, false)] ∧
      act.paramEnum "format" = some ["pem", "jwk"] ∧
      act.responses = [(200, some (MediaRef.Of PublicKeys))] ∧
      PublicKeys.TypeName = "PublicKeys" ∧
      act.statuses.all (fun s => decide (s < 400)) = true := by
  refine ⟨_, rfl, ?_, rfl, rfl, rfl, rfl, rfl⟩
  rw [ActionDefinition.endpoints_of_BasePath "" (token JSONAPIErrors) "/token" rfl]
  rfl

end Design

namespace Design

/-- C2 at a sample request: a query that carries `state` and no `code` fails the declared
validation of the callback action. -/
theorem callback_declares_code_and_state_required_witness :
    (lookupValue "code" [("state", "5f0c")] = none ∨
      lookupValue "state" [("state", "5f0c")] = none) ∧
    ∃ act, (token sampleJSONAPIErrors).action? "callback" = some act ∧
      validateParams act [("state", "5f0c")] ≠ [] := by
  obtain ⟨act, hact, _, _, hfails⟩ :=
    callback_declares_code_and_state_required sampleJSONAPIErrors
  exact ⟨Or.inl rfl, act, hact, hfails [("state", "5f0c")] (Or.inl rfl)⟩

/-- C5 at a sample request: a body whose `grant_type` is `password` fails the declared
validation of the Exchange action. -/
theorem Exchange_payload_and_responses_witness :
    lookupValue "grant_type"
        [("grant_type", Value.String "password"), ("client_id", Value.String "c1")]
      = some (Value.String "password") ∧
    ∃ act, (token sampleJSONAPIErrors).action? "Exchange" = some act ∧
      validatePayload act
        [("grant_type", Value.String "password"), ("client_id", Value.String "c1")] ≠ [] := by
  obtain ⟨act, hact, _, _, _, _, _, hfails, _, _⟩ :=
    Exchange_payload_and_responses sampleJSONAPIErrors
  exact ⟨rfl, act, hact, hfails _ (Value.String "password") rfl (by decide) (by decide)⟩

end Design

namespace Design

/-- The declared validation is not void: a callback request that carries both `code` and
`state` passes. -/
theorem callback_complete_request_passes :
    ((token sampleJSONAPIErrors).action? "callback").map
        (fun act => validateParams act [("code", "abc123"), ("state", "5f0c")])
      = some [] := by
  rfl

/-- The declared validation is not void: an Exchange body with a listed `grant_type` and
a `client_id` passes. -/
theorem Exchange_listed_grant_type_passes :
    ((token sampleJSONAPIErrors).action? "Exchange").map
        (fun act => validatePayload act
          [("grant_type", Value.String "client_credentials"),
            ("client_id", Value.String "c1")])
      = some [] := by
  rfl

end Design

namespace Design

/-- C12: the generate action (GET /token/generate) declares no parameters and no payload,
and exactly the responses 200 with the collection of the `AuthToken` media type, 401 and
500. -/
theorem generate_no_params_and_responses (JSONAPIErrors : MediaTypeDefinition) :
    ∃ act, (token JSONAPIErrors).action? "generate" = some act ∧
      act.endpoints "" (token JSONAPIErrors) = [("GET", "/token/generate")] ∧
      act.Params = none ∧
      act.params = [] ∧
      act.Payload = none ∧
      act.responses =
        [(200, some (MediaRef.CollectionOf AuthToken)),
          (401, some (MediaRef.Of JSONAPIErrors)), (500, some (MediaRef.Of JSONAPIErrors))] ∧
      AuthToken.TypeName = "AuthToken" := by
  refine ⟨_, rfl, ?_, rfl, rfl, rfl, rfl, rfl⟩
  rw [ActionDefinition.endpoints_of_BasePath "" (token JSONAPIErrors) "/token" rfl]
  rfl

/-- C13: the `AuthToken` media type has exactly one attribute, `token`, which is required
and whose type is the user type `TokenData`; `TokenData` has exactly the six attributes
`access_token`, `expires_in`, `refresh_expires_in`, `refresh_token`, `token_type` and
`not-before-policy`. -/
theorem AuthToken_token_and_TokenData_attributes :
    AuthToken.TypeName = "AuthToken" ∧
    AuthToken.Object.summary = [("token", DataType.UserType "TokenData", true)] ∧
    tokenData.TypeName = "TokenData" ∧
    tokenData.Object.Attributes.map (fun p => p.1)
      = ["access_token", "expires_in", "refresh_expires_in", "refresh_token", "token_type",
          "not-before-policy"] ∧
    tokenData.Object.Attributes.length = 6 := by
  refine ⟨rfl, rfl, rfl, rfl, rfl⟩

/-- C14: in `TokenData`, `expires_in` and `refresh_expires_in` are of type Any, the three
`Required` calls accumulate to exactly `expires_in`, `refresh_expires_in` and
`not-before-policy`, and `access_token`, `refresh_token` and `token_type` are optional
Strings. -/
theorem TokenData_types_and_required :
    tokenData.Object.summary
      = [("access_token", DataType.String, false), ("expires_in", DataType.Any, true),
          ("refresh_expires_in", DataType.Any, true), ("refresh_token", DataType.String, false),
          ("token_type", DataType.String, false), ("not-before-policy", DataType.Any, true)] ∧
    tokenData.Object.Required = ["expires_in", "refresh_expires_in", "not-before-policy"] ∧
    (∀ name : String, name ∈ tokenData.Object.Required ↔
      name = "expires_in" ∨ name = "refresh_expires_in" ∨ name = "not-before-policy") := by
  have hreq : tokenData.Object.Required
      = ["expires_in", "refresh_expires_in", "not-before-policy"] := rfl
  refine ⟨rfl, hreq, fun name => ?_⟩
  rw [hreq]
  simp

/-- C15: the `OauthToken` media type has exactly the four attributes `access_token`,
`expiry`, `refresh_token` and `token_type`, all of type String and none required, and its
default view exposes all four. -/
theorem OauthToken_attributes_and_view :
    OauthToken.TypeName = "OauthToken" ∧
    OauthToken.Object.summary
      = [("access_token", DataType.String, false), ("expiry", DataType.String, false),
          ("refresh_token", DataType.String, false), ("token_type", DataType.String, false)] ∧
    OauthToken.Object.Required = [] ∧
    (OauthToken.view? "default").map (fun v => v.Object.Attributes.map (fun p => p.1))
      = some ["access_token", "expiry", "refresh_token", "token_type"] := by
  refine ⟨rfl, rfl, rfl, rfl⟩

/-- C16: the `PublicKeys` media type has exactly one attribute, `keys`, which is required
and is an array whose element type is Any, and its default view exposes `keys`. -/
theorem PublicKeys_attributes_and_view :
    PublicKeys.TypeName = "PublicKeys" ∧
    PublicKeys.Object.summary = [("keys", DataType.ArrayOf DataType.Any, true)] ∧
    (PublicKeys.view? "default").map (fun v => v.Object.Attributes.map (fun p => (p.1, p.2.DType)))
      = some [("keys", DataType.ArrayOf DataType.Any)] := by
  refine ⟨rfl, rfl, rfl⟩

/-- C17: in the `ExternalToken` media type `access_token`, `scope` and `token_type` are
required and `username` is optional, both in the attributes of the type and in its default
view, and the default view exposes exactly these four attributes. -/
theorem ExternalToken_required_and_view :
    externalToken.TypeName = "ExternalToken" ∧
    externalToken.Object.summary
      = [("access_token", DataType.String, true), ("scope", DataType.String, true),
          ("token_type", DataType.String, true), ("username", DataType.String, false)] ∧
    (externalToken.view? "default").map (fun v => v.Object.summary)
      = some [("access_token", DataType.String, true), ("scope", DataType.String, true),
          ("token_type", DataType.String, true), ("username", DataType.String, false)] := by
  refine ⟨rfl, rfl, rfl⟩

end Design

namespace Design

/-- C11: for the keys action JSON Web Key format is the default. The design leaves
`format` optional, so a request without it passes the declared validation; it describes
"jwk" as used by default and declares no default value of its own; and the handler gives
a request without `format` what it gives a request with `format=jwk`, the JSON Web Key
export. -/
theorem keys_format_defaults_to_jwk (JSONAPIErrors : MediaTypeDefinition) {κ : Type}
    (pemKeys jwkKeys : κ) :
    ∃ act, (token JSONAPIErrors).action? "keys" = some act ∧
      act.params = [("format", DataType.String, false)] ∧
      validateParams act [] = [] ∧
      act.paramDescription "format"
        = some "Key format. If set to \"jwk\" (used by default) then JSON Web Key format will be used. If \"pem\" then a PEM-like format (PEM without header and footer) will be used." ∧
      act.paramDefault "format" = none ∧
      Controller.Keys pemKeys jwkKeys none = Controller.Keys pemKeys jwkKeys (some "jwk") ∧
      Controller.Keys pemKeys jwkKeys none = jwkKeys := by
  refine ⟨_, rfl, rfl, rfl, rfl, rfl, ?_, ?_⟩ <;> simp [Controller.Keys]

end Design

namespace Controller

open Design

/-- A code that no stored verification code carries is not found. -/
theorem find?_code_eq_none (codes : List VerificationCode) (code : String)
    (h : ∀ vc ∈ codes, vc.Code ≠ code) :
    codes.find? (fun vc => vc.Code = code) = none := by
  rw [List.find?_eq_none]
  intro vc hvc
  simpa using h vc hvc

/-- The rendering of the redirect that reports a failed verification. -/
theorem render_verification_failed (redirectURL message : String) :
    URL.render { Base := redirectURL, Query := [("verified", "false"), ("error", message)] }
      = redirectURL ++ "?verified=false&error=" ++ QueryEscape message := by
  have hv : QueryEscape "verified" = "verified" := by decide
  have hf : QueryEscape "false" = "false" := by decide
  have he : QueryEscape "error" = "error" := by decide
  have hl : "?verified=false&error="
      = "?" ++ ("verified" ++ ("=" ++ ("false" ++ ("&" ++ ("error" ++ "="))))) := by decide
  unfold URL.render
  rw [if_neg (List.cons_ne_nil _ _)]
  simp only [encodeQuery, hv, hf, he, hl, String.append_assoc]

/-- C18: for every verification code that is not found, `VerifyEmail` answers with a
temporary redirect (status 307) whose location is the configured URL with the query
`verified=false` and `error=<message>`, the message being `code with id '<code>' not
found`, URL-encoded in the rendered location; the stored codes stay as they are. -/
theorem VerifyEmail_unknown_code_redirects_with_error (redirectURL : String)
    (codes : List VerificationCode) (code : String)
    (hunknown : ∀ vc ∈ codes, vc.Code ≠ code) :
    (VerifyEmail redirectURL codes code).1.Status = 307 ∧
    (VerifyEmail redirectURL codes code).1.Location
      = { Base := redirectURL,
          Query := [("verified", "false"),
            ("error", "code with id '" ++ code ++ "' not found")] } ∧
    (VerifyEmail redirectURL codes code).1.Location.render
      = redirectURL ++ "?verified=false&error="
          ++ QueryEscape ("code with id '" ++ code ++ "' not found") ∧
    (VerifyEmail redirectURL codes code).2 = codes := by
  have hfind := find?_code_eq_none codes code hunknown
  have hresult : VerifyEmail redirectURL codes code
      = ({ Status := 307,
           Location := { Base := redirectURL,
                         Query := [("verified", "false"),
                           ("error", "code with id '" ++ code ++ "' not found")] } },
          codes) := by
    unfold VerifyEmail
    rw [hfind]
    rfl
  rw [hresult]
  exact ⟨rfl, rfl, render_verification_failed redirectURL _, rfl⟩

/-- C18 at the request of the test `TestVerifyEmail/fail`: the code `ABCD` with no code
stored. -/
theorem VerifyEmail_unknown_code_redirects_with_error_witness :
    (∀ vc ∈ ([] : List VerificationCode), vc.Code ≠ "ABCD") ∧
    (VerifyEmail testRedirectURL [] "ABCD").1.Status = 307 ∧
    (VerifyEmail testRedirectURL [] "ABCD").1.Location
      = { Base := testRedirectURL,
          Query := [("verified", "false"), ("error", "code with id '" ++ "ABCD" ++ "' not found")] } ∧
    (VerifyEmail testRedirectURL [] "ABCD").1.Location.render
      = testRedirectURL ++ "?verified=false&error="
          ++ QueryEscape ("code with id '" ++ "ABCD" ++ "' not found") ∧
    (VerifyEmail testRedirectURL [] "ABCD").2 = [] :=
  ⟨fun _ h => absurd h (List.not_mem_nil _),
    VerifyEmail_unknown_code_redirects_with_error testRedirectURL [] "ABCD"
      (fun _ h => absurd h (List.not_mem_nil _))⟩

/-- The location that the test `TestVerifyEmail/fail` expects is the rendered location of
the modelled handler. -/
theorem VerifyEmail_test_fail_location :
    (VerifyEmail testRedirectURL [] "ABCD").1.Location.render
      = "https://prod-preview.openshift.io/_home?verified=false&error=code+with+id+%27ABCD%27+not+found" := by
  rfl

end Controller

namespace Controller

open Design

/-- The code stored by an update is found. -/
theorem find?_stored_code_isSome (codes : List VerificationCode) (userID : Nat)
    (generatedCode : String) :
    ∃ found, (storeVerificationCode codes userID generatedCode).find?
      (fun vc => vc.Code = generatedCode) = some found := by
  have hsome : ((storeVerificationCode codes userID generatedCode).find?
      (fun vc => vc.Code = generatedCode)).isSome = true := by
    rw [List.find?_isSome]
    refine ⟨{ UserID := userID, Code := generatedCode }, ?_, by simp⟩
    unfold storeVerificationCode
    exact List.mem_append_right _ (List.mem_singleton.mpr rfl)
  exact Option.isSome_iff_exists.mp hsome

/-- Verifying the code stored by an update answers with `verified=true` and leaves the
stored codes that do not carry it. -/
theorem VerifyEmail_stored_code (redirectURL : String) (codes : List VerificationCode)
    (userID : Nat) (generatedCode : String) :
    VerifyEmail redirectURL (storeVerificationCode codes userID generatedCode) generatedCode
      = ({ Status := 307,
           Location := { Base := redirectURL, Query := [("verified", "true")] } },
          (storeVerificationCode codes userID generatedCode).filter
            (fun vc => vc.Code ≠ generatedCode)) := by
  obtain ⟨found, hfound⟩ := find?_stored_code_isSome codes userID generatedCode
  unfold VerifyEmail
  rw [hfound]

/-- C19: after the email of a user is updated, exactly one verification code exists for
that user; `VerifyEmail` with that code answers with a temporary redirect (status 307) to
the configured URL with `verified=true` and consumes the code, so that no verification
code remains for the user. This holds for every store of codes, whatever codes the user
or other users had before the update. -/
theorem VerifyEmail_consumes_the_code_of_an_update (redirectURL : String)
    (codes : List VerificationCode) (userID : Nat) (generatedCode : String) :
    codesOfUser (storeVerificationCode codes userID generatedCode) userID
      = [{ UserID := userID, Code := generatedCode }] ∧
    (VerifyEmail redirectURL (storeVerificationCode codes userID generatedCode)
        generatedCode).1
      = { Status := 307,
          Location := { Base := redirectURL, Query := [("verified", "true")] } } ∧
    (VerifyEmail redirectURL (storeVerificationCode codes userID generatedCode)
        generatedCode).1.Location.render
      = redirectURL ++ "?verified=true" ∧
    codesOfUser
      (VerifyEmail redirectURL (storeVerificationCode codes userID generatedCode)
        generatedCode).2 userID = [] := by
  have hothers : (codes.filter (fun vc => vc.UserID ≠ userID)).filter
      (fun vc => vc.UserID = userID) = [] := by
    rw [List.filter_eq_nil_iff]
    intro vc hvc
    have hne := (List.mem_filter.mp hvc).2
    simpa using hne
  have hone : codesOfUser (storeVerificationCode codes userID generatedCode) userID
      = [{ UserID := userID, Code := generatedCode }] := by
    unfold codesOfUser storeVerificationCode
    rw [List.filter_append, hothers]
    simp
  have hrender : URL.render { Base := redirectURL, Query := [("verified", "true")] }
      = redirectURL ++ "?verified=true" := by
    have hv : QueryEscape "verified" = "verified" := by decide
    have ht : QueryEscape "true" = "true" := by decide
    have hl : "?verified=true" = "?" ++ ("verified" ++ ("=" ++ "true")) := by decide
    unfold URL.render
    rw [if_neg (List.cons_ne_nil _ _)]
    simp only [encodeQuery, hv, ht, hl, String.append_assoc]
  have hleft : codesOfUser
      ((storeVerificationCode codes userID generatedCode).filter
        (fun vc => vc.Code ≠ generatedCode)) userID = [] := by
    unfold codesOfUser
    rw [List.filter_eq_nil_iff]
    intro vc hvc huser
    obtain ⟨hstored, hcode⟩ := List.mem_filter.mp hvc
    have hmem : vc ∈ codesOfUser (storeVerificationCode codes userID generatedCode) userID :=
      List.mem_filter.mpr ⟨hstored, huser⟩
    rw [hone, List.mem_singleton] at hmem
    rw [hmem] at hcode
    simp at hcode
  rw [VerifyEmail_stored_code redirectURL codes userID generatedCode]
  exact ⟨hone, rfl, hrender, hleft⟩

/-- C19 at a store in which the user has a pending code from an earlier update and
another user has a code of their own. -/
theorem VerifyEmail_consumes_the_code_of_an_update_witness :
    codesOfUser
        (storeVerificationCode samplePendingCodes 1 sampleGeneratedCode) 1
      = [{ UserID := 1, Code := sampleGeneratedCode }] ∧
    (VerifyEmail testRedirectURL
        (storeVerificationCode samplePendingCodes 1 sampleGeneratedCode)
        sampleGeneratedCode).1
      = { Status := 307,
          Location := { Base := testRedirectURL, Query := [("verified", "true")] } } ∧
    (VerifyEmail testRedirectURL
        (storeVerificationCode samplePendingCodes 1 sampleGeneratedCode)
        sampleGeneratedCode).1.Location.render
      = testRedirectURL ++ "?verified=true" ∧
    codesOfUser
      (VerifyEmail testRedirectURL
        (storeVerificationCode samplePendingCodes 1 sampleGeneratedCode)
        sampleGeneratedCode).2 1 = [] :=
  VerifyEmail_consumes_the_code_of_an_update testRedirectURL samplePendingCodes 1
    sampleGeneratedCode

/-- What the test `TestVerifyEmail/ok` asserts holds of the model: a new user has one
code after the update and none after `VerifyEmail`, and the codes of other users stay. -/
theorem VerifyEmail_test_ok_codes :
    (codesOfUser (storeVerificationCode [] 1 sampleGeneratedCode) 1).length = 1 ∧
    (codesOfUser
      (VerifyEmail testRedirectURL (storeVerificationCode [] 1 sampleGeneratedCode)
        sampleGeneratedCode).2 1).length = 0 ∧
    (VerifyEmail testRedirectURL
        (storeVerificationCode samplePendingCodes 1 sampleGeneratedCode)
        sampleGeneratedCode).2
      = [{ UserID := 2, Code := "0e7c6a52-1f3b-4d55-9a3e-5b8f2c4d6e10" }] := by
  decide

/-- The location that the test `TestVerifyEmail/ok` expects is the rendered location of
the modelled handler. -/
theorem VerifyEmail_test_ok_location :
    (VerifyEmail testRedirectURL (storeVerificationCode [] 1 sampleGeneratedCode)
        sampleGeneratedCode).1.Location.render
      = "https://prod-preview.openshift.io/_home?verified=true" := by
  rfl

end Controller

namespace Controller

open Design

/-- After an assignment the name has the assigned value. -/
theorem lookupValue_setValue_self (name : String) (v : Value) (m : List (String × Value)) :
    lookupValue name (setValue name v m) = some v := by
  induction m with
  | nil => simp [setValue, lookupValue]
  | cons p rest ih =>
    obtain ⟨n, old⟩ := p
    by_cases hn : n = name
    · simp [setValue, lookupValue, hn]
    · simp [setValue, lookupValue, hn, ih]

/-- An assignment leaves every other name as it was. -/
theorem lookupValue_setValue_of_ne (name other : String) (v : Value)
    (m : List (String × Value)) (hne : other ≠ name) :
    lookupValue other (setValue name v m) = lookupValue other m := by
  have hne' : ¬ name = other := fun h => hne h.symm
  induction m with
  | nil => simp [setValue, lookupValue, hne']
  | cons p rest ih =>
    obtain ⟨n, old⟩ := p
    by_cases hn : n = name
    · subst hn
      simp [setValue, lookupValue, hne']
    · by_cases ho : n = other
      · subst ho
        simp [setValue, lookupValue, hn]
      · simp [setValue, lookupValue, hn, ho, ih]

/-- After a deletion the name has no value. -/
theorem lookupValue_deleteValue_self (name : String) (m : List (String × Value)) :
    lookupValue name (deleteValue name m) = none := by
  induction m with
  | nil => simp [deleteValue, lookupValue]
  | cons p rest ih =>
    obtain ⟨n, old⟩ := p
    by_cases hn : n = name
    · simp [deleteValue, hn, ih]
    · simp [deleteValue, lookupValue, hn, ih]

/-- A deletion leaves every other name as it was. -/
theorem lookupValue_deleteValue_of_ne (name other : String) (m : List (String × Value))
    (hne : other ≠ name) :
    lookupValue other (deleteValue name m) = lookupValue other m := by
  have hne' : ¬ name = other := fun h => hne h.symm
  induction m with
  | nil => simp [deleteValue, lookupValue]
  | cons p rest ih =>
    obtain ⟨n, old⟩ := p
    by_cases hn : n = name
    · subst hn
      simp [deleteValue, lookupValue, hne', ih]
    · by_cases ho : n = other
      · subst ho
        simp [deleteValue, lookupValue, hn]
      · simp [deleteValue, lookupValue, hn, ho, ih]

/-- A name that the payload does not mention keeps its stored value. -/
theorem patchContextInformation_of_absent (payload : List (String × Option Value))
    (stored : List (String × Value)) (name : String)
    (habsent : ∀ entry ∈ payload, entry.1 ≠ name) :
    lookupValue name (patchContextInformation stored payload) = lookupValue name stored := by
  induction payload generalizing stored with
  | nil => rfl
  | cons entry rest ih =>
    have hentry : name ≠ entry.1 := fun h => habsent entry (List.mem_cons_self _ _) h.symm
    have hrest : ∀ e ∈ rest, e.1 ≠ name := fun e he => habsent e (List.mem_cons_of_mem _ he)
    unfold patchContextInformation at ih ⊢
    rw [List.foldl_cons, ih _ hrest]
    cases hv : entry.2 with
    | none => exact lookupValue_deleteValue_of_ne entry.1 name stored hentry
    | some v => exact lookupValue_setValue_of_ne entry.1 name v stored hentry

/-- A name that the payload mentions ends with what the payload says: its value, or no
value when the entry is nil. -/
theorem patchContextInformation_of_present (payload : List (String × Option Value))
    (stored : List (String × Value)) (name : String) (x : Option Value)
    (hkeys : (payload.map Prod.fst).Nodup) (hmem : (name, x) ∈ payload) :
    lookupValue name (patchContextInformation stored payload) = x := by
  induction payload generalizing stored with
  | nil => exact absurd hmem (List.not_mem_nil _)
  | cons entry rest ih =>
    rw [List.map_cons, List.nodup_cons] at hkeys
    obtain ⟨hfirst, hrestkeys⟩ := hkeys
    rcases List.mem_cons.mp hmem with hhere | hlater
    · have hrest : ∀ e ∈ rest, e.1 ≠ name := by
        intro e he heq
        apply hfirst
        rw [← hhere]
        exact List.mem_map.mpr ⟨e, he, heq⟩
      have hstep := patchContextInformation_of_absent rest
        (match entry.2 with
          | none => deleteValue entry.1 stored
          | some v => setValue entry.1 v stored) name hrest
      unfold patchContextInformation at hstep ⊢
      rw [List.foldl_cons, hstep, ← hhere]
      cases x with
      | none => exact lookupValue_deleteValue_self name stored
      | some v => exact lookupValue_setValue_self name v stored
    · unfold patchContextInformation at ih ⊢
      rw [List.foldl_cons]
      exact ih _ hrestkeys hlater

/-- C20: an update merges the context information of the payload into the stored map.
For a payload whose keys are distinct (it is a map): every key of the payload with a
non-nil value has that value afterwards, every key of the payload whose value is nil has
no value afterwards, and every key that the payload does not have keeps its stored
value. -/
theorem patchContextInformation_merges (stored : List (String × Value))
    (payload : List (String × Option Value))
    (hkeys : (payload.map Prod.fst).Nodup) :
    (∀ (name : String) (v : Value), (name, some v) ∈ payload →
      lookupValue name (patchContextInformation stored payload) = some v) ∧
    (∀ name : String, (name, none) ∈ payload →
      lookupValue name (patchContextInformation stored payload) = none) ∧
    (∀ name : String, name ∉ payload.map Prod.fst →
      lookupValue name (patchContextInformation stored payload)
        = lookupValue name stored) := by
  refine ⟨fun name v hmem => ?_, fun name hmem => ?_, fun name habsent => ?_⟩
  · exact patchContextInformation_of_present payload stored name (some v) hkeys hmem
  · exact patchContextInformation_of_present payload stored name none hkeys hmem
  · refine patchContextInformation_of_absent payload stored name (fun entry hentry heq => ?_)
    exact habsent (List.mem_map.mpr ⟨entry, hentry, heq⟩)

end Controller

namespace Controller

open Design

/-- C20 at the second update of the test `patch context info`. -/
theorem patchContextInformation_merges_witness :
    (testPatchedContextInformation.map Prod.fst).Nodup ∧
    (∀ (name : String) (v : Value), (name, some v) ∈ testPatchedContextInformation →
      lookupValue name
        (patchContextInformation testStoredContextInformation testPatchedContextInformation)
        = some v) ∧
    (∀ name : String, (name, none) ∈ testPatchedContextInformation →
      lookupValue name
        (patchContextInformation testStoredContextInformation testPatchedContextInformation)
        = none) ∧
    (∀ name : String, name ∉ testPatchedContextInformation.map Prod.fst →
      lookupValue name
        (patchContextInformation testStoredContextInformation testPatchedContextInformation)
        = lookupValue name testStoredContextInformation) :=
  ⟨by decide,
    patchContextInformation_merges testStoredContextInformation
      testPatchedContextInformation (by decide)⟩

/-- What the test `patch context info` asserts holds of the model: the first update
stores both entries, and after the second update `last_visited` is intact and `count` is
the patched value. -/
theorem patchContextInformation_test_patch :
    patchContextInformation []
        [("last_visited", some (Value.String "yesterday")), ("count", some (Value.Number 3))]
      = testStoredContextInformation ∧
    lookupValue "last_visited"
        (patchContextInformation testStoredContextInformation testPatchedContextInformation)
      = some (Value.String "yesterday") ∧
    lookupValue "count"
        (patchContextInformation testStoredContextInformation testPatchedContextInformation)
      = some (Value.Number 5) := by
  decide

/-- What the test `unset variable in context information` asserts holds of the model:
after the second update `space` is intact and `last_visited` is not found. -/
theorem patchContextInformation_test_unset :
    lookupValue "space"
        (patchContextInformation testFullContextInformation testUnsetContextInformation)
      = some (Value.String "3d6dab8d-f204-42e8-ab29-cdb1c93130ad") ∧
    lookupValue "last_visited"
        (patchContextInformation testFullContextInformation testUnsetContextInformation)
      = none := by
  decide

end Controller

namespace Controller

/-- C25: for every request context in which both `State` and `Code` are non-nil, whatever
their values, `Authorizecallback` calls `Auth.PerformAuthorizeCallback` exactly once, with
that same context, makes no other call, and returns its result and leaves the world as
that call leaves it. -/
theorem Authorizecallback_delegates_to_PerformAuthorizeCallback {δ β ε σ : Type}
    (pkg : Packages δ β ε σ) (c : AuthorizecallbackController δ ε σ)
    (ctx : AuthorizecallbackAuthorizecallbackContext δ) (w : σ)
    (hstate : ctx.State ≠ none) (hcode : ctx.Code ≠ none) :
    (Authorizecallback pkg c ctx w).calls = [Call.PerformAuthorizeCallback ctx] ∧
    ((Authorizecallback pkg c ctx w).calls.filter Call.isPerformAuthorizeCallback).length = 1 ∧
    (Authorizecallback pkg c ctx w).result = (c.Auth.PerformAuthorizeCallback ctx w).1 ∧
    (Authorizecallback pkg c ctx w).world = (c.Auth.PerformAuthorizeCallback ctx w).2 := by
  cases hs : ctx.State with
  | none => exact absurd hs hstate
  | some s =>
    cases hc : ctx.Code with
    | none => exact absurd hc hcode
    | some code =>
      refine ⟨?_, ?_, ?_, ?_⟩ <;>
        simp [Authorizecallback, hs, hc, Call.isPerformAuthorizeCallback]

/-- C25 at a sample request with state and code: the handler returns what the OAuth
service returns. -/
theorem Authorizecallback_delegates_to_PerformAuthorizeCallback_witness :
    sampleContextComplete.State ≠ none ∧ sampleContextComplete.Code ≠ none ∧
    (Authorizecallback samplePackages sampleController sampleContextComplete []).calls
      = [Call.PerformAuthorizeCallback sampleContextComplete] ∧
    ((Authorizecallback samplePackages sampleController sampleContextComplete []).calls.filter
      Call.isPerformAuthorizeCallback).length = 1 ∧
    (Authorizecallback samplePackages sampleController sampleContextComplete []).result
      = (sampleController.Auth.PerformAuthorizeCallback sampleContextComplete []).1 ∧
    (Authorizecallback samplePackages sampleController sampleContextComplete []).world
      = (sampleController.Auth.PerformAuthorizeCallback sampleContextComplete []).2 :=
  ⟨by simp [sampleContextComplete], by simp [sampleContextComplete],
    Authorizecallback_delegates_to_PerformAuthorizeCallback samplePackages sampleController
      sampleContextComplete [] (by simp [sampleContextComplete])
      (by simp [sampleContextComplete])⟩

/-- C26: `Authorizecallback` checks `State` before `Code`. Whenever `State` is nil the
error reported is the bad-parameter error for `state` with value `nil` and expected
`State`, whether or not `Code` is there; and, the two errors being different, the
bad-parameter error for `code` (value `nil`, expected `Code`) is reported exactly when
`State` is non-nil and `Code` is nil. -/
theorem Authorizecallback_checks_State_before_Code {δ β ε σ : Type}
    (pkg : Packages δ β ε σ) (c : AuthorizecallbackController δ ε σ)
    (ctx : AuthorizecallbackAuthorizecallbackContext δ) (w : σ)
    (hdistinct : pkg.Expected (pkg.NewBadParameterError "state" "nil") "State"
      ≠ pkg.Expected (pkg.NewBadParameterError "code" "nil") "Code") :
    (ctx.State = none →
      (Authorizecallback pkg c ctx w).calls
        = [Call.JSONErrorResponse ctx
            (pkg.Expected (pkg.NewBadParameterError "state" "nil") "State")]) ∧
    ((Authorizecallback pkg c ctx w).calls
        = [Call.JSONErrorResponse ctx
            (pkg.Expected (pkg.NewBadParameterError "code" "nil") "Code")]
      ↔ ctx.State ≠ none ∧ ctx.Code = none) := by
  cases hs : ctx.State with
  | none =>
    refine ⟨fun _ => by simp [Authorizecallback, hs], ?_⟩
    constructor
    · intro hcalls
      simp [Authorizecallback, hs] at hcalls
      exact absurd hcalls hdistinct
    · intro h
      exact absurd rfl h.1
  | some s =>
    refine ⟨fun h => by simp at h, ?_⟩
    cases hc : ctx.Code with
    | none => simp [Authorizecallback, hs, hc]
    | some code => simp [Authorizecallback, hs, hc]

/-- C26 at a sample request with a state and no code: the error reported is the one for
`code`. -/
theorem Authorizecallback_checks_State_before_Code_witness :
    samplePackages.Expected (samplePackages.NewBadParameterError "state" "nil") "State"
      ≠ samplePackages.Expected (samplePackages.NewBadParameterError "code" "nil") "Code" ∧
    (sampleContextWithoutCode.State = none →
      (Authorizecallback samplePackages sampleController sampleContextWithoutCode []).calls
        = [Call.JSONErrorResponse sampleContextWithoutCode
            (samplePackages.Expected (samplePackages.NewBadParameterError "state" "nil")
              "State")]) ∧
    ((Authorizecallback samplePackages sampleController sampleContextWithoutCode []).calls
        = [Call.JSONErrorResponse sampleContextWithoutCode
            (samplePackages.Expected (samplePackages.NewBadParameterError "code" "nil")
              "Code")]
      ↔ sampleContextWithoutCode.State ≠ none ∧ sampleContextWithoutCode.Code = none) :=
  ⟨by decide,
    Authorizecallback_checks_State_before_Code samplePackages sampleController
      sampleContextWithoutCode [] (by decide)⟩

end Controller

namespace Design

/-- C27: an action of the token resource declares the security scheme `jwt` exactly when
it is Retrieve, Delete or link; Exchange, keys, generate, refresh and callback declare no
security scheme, and Exchange, generate and refresh declare a 401 response all the
same. -/
theorem token_jwt_security_on_Retrieve_Delete_link (JSONAPIErrors : MediaTypeDefinition) :
    (token JSONAPIErrors).Actions.map (fun act => (act.Name, act.Security))
      = [("Retrieve", some "jwt"), ("Delete", some "jwt"), ("Exchange", none),
          ("keys", none), ("generate", none), ("refresh", none), ("link", some "jwt"),
          ("callback", none)] ∧
    (∀ (name : String) (security : Option String),
      (name, security) ∈ (token JSONAPIErrors).Actions.map (fun act => (act.Name, act.Security)) →
      (security = some "jwt" ↔ name = "Retrieve" ∨ name = "Delete" ∨ name = "link") ∧
      (security ≠ some "jwt" → security = none)) ∧
    ((token JSONAPIErrors).Actions.filter (fun act => act.Security.isNone)).map
        (fun act => (act.Name, act.declares 401))
      = [("Exchange", true), ("keys", false), ("generate", true), ("refresh", true),
          ("callback", false)] := by
  have hsecurity : (token JSONAPIErrors).Actions.map (fun act => (act.Name, act.Security))
      = [("Retrieve", some "jwt"), ("Delete", some "jwt"), ("Exchange", none),
          ("keys", none), ("generate", none), ("refresh", none), ("link", some "jwt"),
          ("callback", none)] := rfl
  refine ⟨hsecurity, fun name security hmem => ?_, rfl⟩
  rw [hsecurity] at hmem
  simp only [List.mem_cons, Prod.mk.injEq, List.mem_singleton, List.not_mem_nil,
    or_false] at hmem
  rcases hmem with h | h | h | h | h | h | h | h <;> obtain ⟨rfl, rfl⟩ := h <;> decide

/-- C28: every action of the token resource that declares a required parameter or takes a
payload declares a 400 response; the actions without a 400 response are keys and
generate, and neither has a required parameter or a payload. -/
theorem token_bad_request_where_input_is_required (JSONAPIErrors : MediaTypeDefinition) :
    (token JSONAPIErrors).Actions.map
        (fun act => (act.Name, act.hasRequiredParam, act.hasPayload, act.declares 400))
      = [("Retrieve", true, false, true), ("Delete", true, false, true),
          ("Exchange", false, true, true), ("keys", false, false, false),
          ("generate", false, false, false), ("refresh", false, true, true),
          ("link", true, false, true), ("callback", true, false, true)] ∧
    (∀ (name : String) (required payload badRequest : Bool),
      (name, required, payload, badRequest) ∈ (token JSONAPIErrors).Actions.map
        (fun act => (act.Name, act.hasRequiredParam, act.hasPayload, act.declares 400)) →
      ((required = true ∨ payload = true) → badRequest = true) ∧
      (badRequest = false ↔ name = "keys" ∨ name = "generate") ∧
      (badRequest = false → required = false ∧ payload = false)) := by
  have hactions : (token JSONAPIErrors).Actions.map
      (fun act => (act.Name, act.hasRequiredParam, act.hasPayload, act.declares 400))
      = [("Retrieve", true, false, true), ("Delete", true, false, true),
          ("Exchange", false, true, true), ("keys", false, false, false),
          ("generate", false, false, false), ("refresh", false, true, true),
          ("link", true, false, true), ("callback", true, false, true)] := rfl
  refine ⟨hactions, fun name required payload badRequest hmem => ?_⟩
  rw [hactions] at hmem
  simp only [List.mem_cons, Prod.mk.injEq, List.mem_singleton, List.not_mem_nil,
    or_false] at hmem
  rcases hmem with h | h | h | h | h | h | h | h <;>
    obtain ⟨rfl, rfl, rfl, rfl⟩ := h <;> decide

/-- C29: neither the attributes of the `ExternalToken` media type nor its default view
contain `refresh_token` or `expiry`; the attributes and the default view of the
`OauthToken` media type contain both. -/
theorem ExternalToken_exposes_no_refresh_token_or_expiry :
    externalToken.attributeNames = ["access_token", "scope", "token_type", "username"] ∧
    externalToken.viewNames "default" = ["access_token", "scope", "token_type", "username"] ∧
    "refresh_token" ∉ externalToken.attributeNames ∧
    "expiry" ∉ externalToken.attributeNames ∧
    "refresh_token" ∉ externalToken.viewNames "default" ∧
    "expiry" ∉ externalToken.viewNames "default" ∧
    "refresh_token" ∈ OauthToken.attributeNames ∧
    "expiry" ∈ OauthToken.attributeNames ∧
    "refresh_token" ∈ OauthToken.viewNames "default" ∧
    "expiry" ∈ OauthToken.viewNames "default" := by
  have hattrs : externalToken.attributeNames
      = ["access_token", "scope", "token_type", "username"] := rfl
  have hview : externalToken.viewNames "default"
      = ["access_token", "scope", "token_type", "username"] := rfl
  have hoauth : OauthToken.attributeNames
      = ["access_token", "expiry", "refresh_token", "token_type"] := rfl
  have hoauthview : OauthToken.viewNames "default"
      = ["access_token", "expiry", "refresh_token", "token_type"] := rfl
  rw [hattrs, hview, hoauth, hoauthview]
  decide

end Design

namespace Design

/-- A document that has every required name and whose present attributes pass their
checks passes the declared validation. -/
theorem validateObject_eq_nil (o : ObjectDefinition) (doc : List (String × Value))
    (hrequired : ∀ name ∈ o.Required, lookupValue name doc ≠ none)
    (hattributes : ∀ p ∈ o.Attributes, ∀ v : Value,
      lookupValue p.1 doc = some v → checkAttribute p.1 p.2 v = []) :
    validateObject o doc = [] := by
  unfold validateObject
  rw [List.append_eq_nil]
  constructor
  · rw [List.map_eq_nil_iff, List.filter_eq_nil_iff]
    intro name hname
    have hsome := hrequired name hname
    cases hlookup : lookupValue name doc with
    | none => exact absurd hlookup hsome
    | some v => simp
  · rw [List.flatten_eq_nil_iff]
    intro errors herrors
    obtain ⟨p, hp, rfl⟩ := List.mem_map.mp herrors
    cases hlookup : lookupValue p.1 doc with
    | none => rfl
    | some v => exact hattributes p hp v hlookup

/-- Every attribute of `TokenExchange` is a String, and `grant_type` is the only one with
an `Enum`. -/
theorem tokenExchange_attributes_are_strings :
    ∀ p ∈ tokenExchange.Object.Attributes,
      p.2.DType = DataType.String ∧
      (p.2.Values = none ∨
        (p.1 = "grant_type" ∧ p.2.Values = some ["client_credentials", "authorization_code"])) := by
  have hall : tokenExchange.Object.Attributes.all
      (fun p => decide (p.2.DType = DataType.String ∧
        (p.2.Values = none ∨
          (p.1 = "grant_type"
            ∧ p.2.Values = some ["client_credentials", "authorization_code"])))) = true := by
    rfl
  intro p hp
  exact of_decide_eq_true (List.all_eq_true.mp hall p hp)

/-- C30: the required names of the `TokenExchange` payload are exactly `grant_type` and
`client_id`, whatever the grant type; every body of String values that has a `grant_type`
among `client_credentials` and `authorization_code` and a `client_id` passes the declared
validation of the Exchange action, as do an `authorization_code` request without `code`
and `redirect_uri` and a `client_credentials` request without `client_secret`. -/
theorem TokenExchange_requires_grant_type_and_client_id_only
    (JSONAPIErrors : MediaTypeDefinition) :
    tokenExchange.Object.Required = ["grant_type", "client_id"] ∧
    (∀ name : String, name ∈ tokenExchange.Object.Required ↔
      name = "grant_type" ∨ name = "client_id") ∧
    ∃ act, (token JSONAPIErrors).action? "Exchange" = some act ∧
      act.Payload = some tokenExchange ∧
      (∀ (body : List (String × Value)) (grantType clientID : String),
        lookupValue "grant_type" body = some (Value.String grantType) →
        grantType = "client_credentials" ∨ grantType = "authorization_code" →
        lookupValue "client_id" body = some (Value.String clientID) →
        (∀ (name : String) (v : Value), lookupValue name body = some v →
          ∃ s : String, v = Value.String s) →
        validatePayload act body = []) ∧
      validatePayload act
        [("grant_type", Value.String "authorization_code"), ("client_id", Value.String "c1")]
        = [] ∧
      validatePayload act
        [("grant_type", Value.String "client_credentials"), ("client_id", Value.String "c1")]
        = [] := by
  have hrequired : tokenExchange.Object.Required = ["grant_type", "client_id"] := rfl
  refine ⟨hrequired, fun name => ?_, _, rfl, rfl, ?_, rfl, rfl⟩
  · rw [hrequired]
    simp
  · intro body grantType clientID hgrant hlisted hclient hstrings
    show validateObject tokenExchange.Object body = []
    refine validateObject_eq_nil _ _ (fun name hname => ?_) (fun p hp v hv => ?_)
    · rw [hrequired] at hname
      simp only [List.mem_cons, List.mem_singleton, List.not_mem_nil, or_false] at hname
      rcases hname with rfl | rfl
      · rw [hgrant]
        simp
      · rw [hclient]
        simp
    · obtain ⟨s, rfl⟩ := hstrings p.1 v hv
      obtain ⟨htype, hvalues⟩ := tokenExchange_attributes_are_strings p hp
      unfold checkAttribute
      rcases hvalues with hnone | ⟨hname, hsome⟩
      · simp [htype, hnone, conforms]
      · have hs : s = grantType := by
          rw [hname, hgrant] at hv
          injection hv with hv
          injection hv with hv
          exact hv.symm
        rcases hlisted with hl | hl <;> simp [htype, hsome, conforms, hs, hl]

end Design

namespace Controller

/-- C21: for every user whose email is private, Show and List return the empty string as
the email, with `emailPrivate` true, to an anonymous caller, to a user (the user themself
included) and to the online-registration service account; the email itself is returned in
the response of the user's own update and by Show to the notification service account,
and a Show or List response that carries it goes to the notification service account.
For a user whose email is not private the email itself is returned. -/
theorem private_email_shown_to_notification_service_only (showsToNotification : Bool)
    (user : User) :
    (user.EmailPrivate = true →
      (∀ caller : Caller,
        caller = Caller.anonymous ∨ (∃ id, caller = Caller.user id)
          ∨ caller = Caller.onlineRegistrationService →
        ShowUsers caller user = { Email := "", EmailPrivate := true } ∧
        ListUsers showsToNotification caller [user] = [{ Email := "", EmailPrivate := true }]) ∧
      ShowUsers Caller.notificationService user
        = { Email := user.Email, EmailPrivate := true } ∧
      UpdateUsersResponse user = { Email := user.Email, EmailPrivate := true } ∧
      (∀ caller : Caller,
        (ShowUsers caller user).Email ≠ ""
          ∨ ListUsers showsToNotification caller [user] ≠ [{ Email := "", EmailPrivate := true }] →
        caller = Caller.notificationService)) ∧
    (user.EmailPrivate = false →
      ∀ caller : Caller,
        ShowUsers caller user = { Email := user.Email, EmailPrivate := false } ∧
        ListUsers showsToNotification caller [user]
          = [{ Email := user.Email, EmailPrivate := false }] ∧
        UpdateUsersResponse user = { Email := user.Email, EmailPrivate := false }) := by
  constructor
  · intro hprivate
    refine ⟨fun caller hcaller => ?_, ?_, ?_, fun caller hshown => ?_⟩
    · rcases hcaller with rfl | ⟨id, rfl⟩ | rfl <;>
        simp [ShowUsers, ListUsers, ConvertToAppUser, hprivate]
    · simp [ShowUsers, ConvertToAppUser, hprivate]
    · simp [UpdateUsersResponse, ConvertToAppUser, hprivate]
    · cases caller with
      | notificationService => rfl
      | anonymous => simp [ShowUsers, ListUsers, ConvertToAppUser, hprivate] at hshown
      | user id => simp [ShowUsers, ListUsers, ConvertToAppUser, hprivate] at hshown
      | onlineRegistrationService =>
        simp [ShowUsers, ListUsers, ConvertToAppUser, hprivate] at hshown
  · intro hpublic caller
    simp [ShowUsers, ListUsers, UpdateUsersResponse, ConvertToAppUser, hpublic]

/-- C21 at the user of the email tests, once the email is private: what the tests
assert of the responses to the user, to no one known and to the two service accounts. -/
theorem private_email_shown_to_notification_service_only_witness :
    testPrivateUser.EmailPrivate = true ∧
    ShowUsers (Caller.user 7) testPrivateUser = { Email := "", EmailPrivate := true } ∧
    ListUsers false Caller.anonymous [testPrivateUser] = [{ Email := "", EmailPrivate := true }] ∧
    ShowUsers Caller.onlineRegistrationService testPrivateUser
      = { Email := "", EmailPrivate := true } ∧
    ShowUsers Caller.notificationService testPrivateUser
      = { Email := testPrivateUser.Email, EmailPrivate := true } ∧
    UpdateUsersResponse testPrivateUser
      = { Email := testPrivateUser.Email, EmailPrivate := true } := by
  obtain ⟨hhidden, hnotification, hupdate, _⟩ :=
    (private_email_shown_to_notification_service_only false testPrivateUser).1 rfl
  exact ⟨rfl, (hhidden (Caller.user 7) (Or.inr (Or.inl ⟨7, rfl⟩))).1,
    (hhidden Caller.anonymous (Or.inl rfl)).2,
    (hhidden Caller.onlineRegistrationService (Or.inr (Or.inr rfl))).1,
    hnotification, hupdate⟩

/-- C23: an update that sets the feature level to `internal` succeeds exactly when the
email of the user is verified and is an address at `redhat.com`; for a verified address
elsewhere and for an address at `redhat.com` that is not verified it is rejected as
Forbidden. -/
theorem internal_feature_level_for_verified_redhat_address (user : User) :
    (updateFeatureLevel user "internal" = UpdateStatus.OK ↔
      user.EmailVerified = true ∧ isRedHatAddress user.Email = true) ∧
    (user.EmailVerified = true → isRedHatAddress user.Email = false →
      updateFeatureLevel user "internal" = UpdateStatus.Forbidden) ∧
    (user.EmailVerified = false → isRedHatAddress user.Email = true →
      updateFeatureLevel user "internal" = UpdateStatus.Forbidden) := by
  unfold updateFeatureLevel
  cases hverified : user.EmailVerified <;> cases hredhat : isRedHatAddress user.Email <;> simp

/-- C23 at the users of the three tests of the level `internal`. -/
theorem internal_feature_level_for_verified_redhat_address_witness :
    (testEmployee.EmailVerified = true ∧ isRedHatAddress testEmployee.Email = true) ∧
    updateFeatureLevel testEmployee "internal" = UpdateStatus.OK ∧
    (testNonEmployee.EmailVerified = true ∧ isRedHatAddress testNonEmployee.Email = false) ∧
    updateFeatureLevel testNonEmployee "internal" = UpdateStatus.Forbidden ∧
    (testNonVerifiedEmployee.EmailVerified = false
      ∧ isRedHatAddress testNonVerifiedEmployee.Email = true) ∧
    updateFeatureLevel testNonVerifiedEmployee "internal" = UpdateStatus.Forbidden :=
  ⟨by decide,
    (internal_feature_level_for_verified_redhat_address testEmployee).1.mpr (by decide),
    by decide,
    (internal_feature_level_for_verified_redhat_address testNonEmployee).2.1
      (by decide) (by decide),
    by decide,
    (internal_feature_level_for_verified_redhat_address testNonVerifiedEmployee).2.2
      (by decide) (by decide)⟩

end Controller

namespace Controller

/-- C22, as stated, fails: before registration is completed an update that carries the
username of one space, or the username of another identity, does not succeed; it is
answered with Bad Request, as the tests `invalid username` and `existing username`
expect. -/
theorem updateIdentity_bad_username_before_completion :
    testNewIdentity.RegistrationCompleted = false ∧
    (updateIdentity [] testNewIdentity
      { Username := some " ", RegistrationCompleted := none }).1 = UpdateStatus.BadRequest ∧
    (updateIdentity ["OtherUser-9c1d"] testNewIdentity
      { Username := some "OtherUser-9c1d", RegistrationCompleted := none }).1
      = UpdateStatus.BadRequest := by
  decide

/-- C22, amended: the username of an identity changes only while its registration is not
completed. Before completion an update that carries the current username, or a valid
username that no other identity has, and that does not set `registrationCompleted` to
false, succeeds and stores the username, also when it sets `registrationCompleted` to
true; a different username that is not valid or belongs to another identity is a bad
request; once registration is completed every update that carries a different username
is rejected as Forbidden; and a rejected update leaves the identity as it was. -/
theorem username_changes_until_registration_completed (others : List String)
    (identity : Identity) (payload : UpdateIdentityAttributes) (name : String)
    (hname : payload.Username = some name) :
    (identity.RegistrationCompleted = false →
      name = identity.Username ∨ (isUsernameValid name = true ∧ name ∉ others) →
      payload.RegistrationCompleted ≠ some false →
      updateIdentity others identity payload
        = (UpdateStatus.OK,
            { Username := name,
              RegistrationCompleted := decide (payload.RegistrationCompleted = some true) })) ∧
    (identity.RegistrationCompleted = false → name ≠ identity.Username →
      isUsernameValid name = false ∨ name ∈ others →
      updateIdentity others identity payload = (UpdateStatus.BadRequest, identity)) ∧
    (identity.RegistrationCompleted = true → name ≠ identity.Username →
      updateIdentity others identity payload = (UpdateStatus.Forbidden, identity)) ∧
    ((updateIdentity others identity payload).1 = UpdateStatus.OK →
      (updateIdentity others identity payload).2.Username ≠ identity.Username →
      identity.RegistrationCompleted = false) := by
  obtain ⟨current, completed⟩ := identity
  obtain ⟨username, registration⟩ := payload
  simp only at hname
  subst hname
  refine ⟨fun hopen hgood hnotfalse => ?_, fun hopen hdiff hbad => ?_,
    fun hdone hdiff => ?_, fun hok hchanged => ?_⟩
  · simp only at hopen hnotfalse
    subst hopen
    rcases hgood with hsame | ⟨hvalid, hfree⟩
    · simp only at hsame
      subst hsame
      cases registration with
      | none => simp [updateIdentity, updateUsername, updateRegistrationCompleted]
      | some b =>
        cases b with
        | true => simp [updateIdentity, updateUsername, updateRegistrationCompleted]
        | false => exact absurd rfl hnotfalse
    · by_cases hsame : name = current
      · subst hsame
        cases registration with
        | none => simp [updateIdentity, updateUsername, updateRegistrationCompleted]
        | some b =>
          cases b with
          | true => simp [updateIdentity, updateUsername, updateRegistrationCompleted]
          | false => exact absurd rfl hnotfalse
      · cases registration with
        | none =>
          simp [updateIdentity, updateUsername, updateRegistrationCompleted, hsame, hvalid,
            hfree]
        | some b =>
          cases b with
          | true =>
            simp [updateIdentity, updateUsername, updateRegistrationCompleted, hsame, hvalid,
              hfree]
          | false => exact absurd rfl hnotfalse
  · simp only at hopen hdiff
    subst hopen
    rcases hbad with hinvalid | htaken
    · simp [updateIdentity, updateUsername, hdiff, hinvalid]
    · cases hvalid : isUsernameValid name <;>
        simp [updateIdentity, updateUsername, hdiff, hvalid, htaken]
  · simp only at hdone hdiff
    subst hdone
    simp [updateIdentity, updateUsername, hdiff]
  · simp only
    cases completed with
    | false => rfl
    | true =>
      exfalso
      by_cases hsame : name = current
      · subst hsame
        apply hchanged
        cases registration with
        | none => simp [updateIdentity, updateUsername, updateRegistrationCompleted]
        | some b =>
          cases b <;> simp [updateIdentity, updateUsername, updateRegistrationCompleted]
      · simp [updateIdentity, updateUsername, hsame] at hok

end Controller

namespace Controller

/-- C22, amended, at the update of the test `registration completed and username ok`: a
new username together with `registrationCompleted` true, before completion. -/
theorem username_changes_until_registration_completed_witness :
    (({ Username := some "TestUser-3f2a-77e0", RegistrationCompleted := some true } :
      UpdateIdentityAttributes).Username = some "TestUser-3f2a-77e0") ∧
    updateIdentity [] testNewIdentity
        { Username := some "TestUser-3f2a-77e0", RegistrationCompleted := some true }
      = (UpdateStatus.OK,
          { Username := "TestUser-3f2a-77e0", RegistrationCompleted := true }) :=
  ⟨rfl,
    (username_changes_until_registration_completed [] testNewIdentity
      { Username := some "TestUser-3f2a-77e0", RegistrationCompleted := some true }
      "TestUser-3f2a-77e0" rfl).1 rfl (Or.inr ⟨by decide, by decide⟩) (by decide)⟩

/-- What the test `username multiple times forbidden` asserts holds of the model: a new
username is accepted, the same username with `registrationCompleted` true is accepted,
and another username is then Forbidden. -/
theorem updateIdentity_test_username_forbidden :
    updateIdentity [] testNewIdentity
        { Username := some "TestUser-3f2a-1b", RegistrationCompleted := none }
      = (UpdateStatus.OK, { Username := "TestUser-3f2a-1b", RegistrationCompleted := false }) ∧
    updateIdentity [] { Username := "TestUser-3f2a-1b", RegistrationCompleted := false }
        { Username := some "TestUser-3f2a-1b", RegistrationCompleted := some true }
      = (UpdateStatus.OK, { Username := "TestUser-3f2a-1b", RegistrationCompleted := true }) ∧
    (updateIdentity [] { Username := "TestUser-3f2a-1b", RegistrationCompleted := true }
        { Username := some "TestUser-3f2a-2c", RegistrationCompleted := none }).1
      = UpdateStatus.Forbidden := by
  decide

/-- What the tests `username multiple times ok` and `registration completed bad request`
assert holds of the model: repeating the current username is accepted and leaves the
registration not completed, and `registrationCompleted` false is a bad request. -/
theorem updateIdentity_test_username_ok :
    updateIdentity [] testNewIdentity
        { Username := some testNewIdentity.Username, RegistrationCompleted := none }
      = (UpdateStatus.OK, testNewIdentity) ∧
    (updateIdentity [] testNewIdentity
        { Username := none, RegistrationCompleted := some false }).1
      = UpdateStatus.BadRequest := by
  decide

end Controller
